import Mathlib

set_option maxRecDepth 100000
set_option maxHeartbeats 2000000

/-
  Verification development for the preset persistence subsystem of the
  Hair-Factory repository (src/preset_util.py).

  The development is a shallow embedding of the relevant Python code:

  * Python values that flow into the JSON serializer are modelled by the
    inductive type JVal (integers, strings, booleans, None, lists, tuples,
    and 1- or 2-dimensional numpy integer arrays).  Floating point payloads
    are outside the scope of the embedded fragment; every claim under
    study only exercises integer, string and boolean data.
  * json.dumps (default separators, ensure_ascii, optional sort_keys) is
    implemented literally, including the escape rules, so that the SHA-256
    digests computed here coincide with the ones the Python code computes.
  * SHA-256 is implemented executably over byte lists.
  * The HDF5 store (tables of datasets with name attributes) is modelled as
    association lists inside the Store structure; the processing functions
    of preset_util.py are translated statement by statement, with Python
    exceptions modelled by an error component that also carries the state
    reached when the exception was raised.
  * Blender node trees are modelled by the inductive type NT: a node is
    either a plain node (with its type string, its name, and the data that
    the kind-specific codec of the source would extract from it) or a group
    node carrying a nested tree with its own links.  Regular string names
    model only the ASCII fragment of the Python regexes used for
    validation.
-/

/- ---------------------------------------------------------------- -/
/- Python string helpers                                            -/
/- ---------------------------------------------------------------- -/

/-- Code-point comparison of character lists, matching comparison of
Python str values. -/
def strLtB : List Char → List Char → Bool
  | [], [] => false
  | [], _ :: _ => true
  | _ :: _, [] => false
  | a :: as, b :: bs =>
    if a.toNat < b.toNat then true
    else if b.toNat < a.toNat then false
    else strLtB as bs

def pyStrLt (a b : String) : Bool := strLtB a.data b.data

def pyStrLe (a b : String) : Bool := !(pyStrLt b a)

def splitDotAux : List Char → List Char → List String
  | acc, [] => [String.mk acc.reverse]
  | acc, c :: cs =>
    if c = '.' then String.mk acc.reverse :: splitDotAux [] cs
    else splitDotAux (c :: acc) cs

/-- Python str.split with separator the dot character. -/
def pySplitDot (s : String) : List String := splitDotAux [] s.data

/-- Python str.zfill (sign aware). -/
def zfill (w : Nat) (s : String) : String :=
  match s.data with
  | '-' :: rest =>
    if rest.length + 1 < w then
      "-" ++ String.mk (List.replicate (w - 1 - rest.length) '0') ++ String.mk rest
    else s
  | '+' :: rest =>
    if rest.length + 1 < w then
      "+" ++ String.mk (List.replicate (w - 1 - rest.length) '0') ++ String.mk rest
    else s
  | _ =>
    if s.length < w then String.mk (List.replicate (w - s.length) '0') ++ s
    else s

/-- Python str.upper on the ASCII fragment. -/
def pyUpper (s : String) : String := s.map Char.toUpper

/-- ASCII word characters, the ASCII fragment of the regex class w. -/
def isWordChar (c : Char) : Bool := c.isAlphanum || c = '_'

/-- ASCII whitespace, the ASCII fragment of the regex class s. -/
def isSpaceChar (c : Char) : Bool :=
  c = ' ' || c = '\t' || c = '\n' || c = '\x0d' || c = '\x0b' || c = '\x0c'

/-- preset_util.is_string_blank: no word character occurs in the text. -/
def is_string_blank (t : String) : Bool := !(t.data.any isWordChar)

/-- preset_util.string_has_space: some whitespace character occurs. -/
def string_has_space (t : String) : Bool := t.data.any isSpaceChar

/-- preset_util.string_startswith_space: the first whitespace match is at
position zero, which happens exactly when the first character is
whitespace. -/
def string_startswith_space (t : String) : Bool :=
  match t.data with
  | [] => false
  | c :: _ => isSpaceChar c

def digitsToNat : List Char → Option Nat
  | [] => none
  | cs => digitsToNatAux 0 cs
where
  digitsToNatAux : Nat → List Char → Option Nat
    | acc, [] => some acc
    | acc, c :: cs =>
      if c.isDigit then digitsToNatAux (acc * 10 + (c.toNat - 48)) cs
      else none

/-- Python int applied to a string: optional surrounding whitespace,
optional sign, a nonempty digit run; anything else raises ValueError,
modelled by none. -/
def pyInt? (s : String) : Option Int :=
  let cs := ((s.data.dropWhile isSpaceChar).reverse.dropWhile isSpaceChar).reverse
  match cs with
  | '-' :: rest => (digitsToNat rest).map (fun n => -(n : Int))
  | '+' :: rest => (digitsToNat rest).map (fun n => (n : Int))
  | rest => (digitsToNat rest).map (fun n => (n : Int))

/- ---------------------------------------------------------------- -/
/- JSON values and the serializer (json.dumps)                      -/
/- ---------------------------------------------------------------- -/

/-- The fragment of Python values handled by the preset subsystem when it
serializes for hashing and storage: integers, strings, booleans, None,
lists, tuples, and numpy integer arrays of dimension one or two. -/
inductive JVal : Type where
  | jnull : JVal
  | jnum : Int → JVal
  | jstr : String → JVal
  | jbool : Bool → JVal
  | jnd : List Int → JVal
  | jnd2 : List (List Int) → JVal
  | jarr : List JVal → JVal
  | jtup : List JVal → JVal
  | jobj : List (String × JVal) → JVal

def hexDigit (n : Nat) : Char :=
  match n with
  | 0 => '0' | 1 => '1' | 2 => '2' | 3 => '3' | 4 => '4' | 5 => '5' | 6 => '6' | 7 => '7'
  | 8 => '8' | 9 => '9' | 10 => 'a' | 11 => 'b' | 12 => 'c' | 13 => 'd' | 14 => 'e' | _ => 'f'

def hex4 (n : Nat) : List Char :=
  [hexDigit ((n >>> 12) % 16), hexDigit ((n >>> 8) % 16), hexDigit ((n >>> 4) % 16), hexDigit (n % 16)]

/-- Escape of one character, following json.dumps with ensure_ascii. -/
def escChar (c : Char) : List Char :=
  let n := c.toNat
  if c = '"' then ['\\', '"']
  else if c = '\\' then ['\\', '\\']
  else if 0x20 ≤ n && n ≤ 0x7e then [c]
  else if c = '\n' then ['\\', 'n']
  else if c = '\t' then ['\\', 't']
  else if c = '\x0d' then ['\\', 'r']
  else if n = 8 then ['\\', 'b']
  else if n = 12 then ['\\', 'f']
  else if n < 0x10000 then '\\' :: 'u' :: hex4 n
  else
    let m := n - 0x10000
    ('\\' :: 'u' :: hex4 (0xd800 + (m >>> 10))) ++ ('\\' :: 'u' :: hex4 (0xdc00 + (m % 1024)))

def jsonQuote (s : String) : String :=
  String.mk ('"' :: (s.data.flatMap escChar ++ ['"']))

def joinSepArr : List String → String
  | [] => ""
  | [x] => x
  | x :: xs => x ++ ", " ++ joinSepArr xs

def lcurly : String := "\x7b"

def rcurly : String := "\x7d"

def insKV (e : String × JVal) : List (String × JVal) → List (String × JVal)
  | [] => [e]
  | f :: fs => if pyStrLe e.1 f.1 then e :: f :: fs else f :: insKV e fs

/-- Stable insertion sort by key, matching the sorted order used by
json.dumps with sort_keys. -/
def sortKV : List (String × JVal) → List (String × JVal)
  | [] => []
  | e :: es => insKV e (sortKV es)

mutual
/-- Recursive key sorting: every mapping inside the value is put into
sorted key order.  Serializing the result in insertion order is the same
as json.dumps with sort_keys. -/
def sortAll : JVal → JVal
  | .jobj kvs => .jobj (sortKV (sortAllKV kvs))
  | .jarr xs => .jarr (sortAllL xs)
  | .jtup xs => .jtup (sortAllL xs)
  | v => v

def sortAllL : List JVal → List JVal
  | [] => []
  | x :: xs => sortAll x :: sortAllL xs

def sortAllKV : List (String × JVal) → List (String × JVal)
  | [] => []
  | (k, v) :: xs => (k, sortAll v) :: sortAllKV xs
end

mutual
/-- json.dumps with default separators and ensure_ascii, serializing
mappings in their stored entry order.  Numpy arrays are not JSON
serializable, which raises TypeError in Python, modelled by none. -/
def dumps0 : JVal → Option String
  | .jnull => some "null"
  | .jbool b => some (if b then "true" else "false")
  | .jnum n => some (toString n)
  | .jstr s => some (jsonQuote s)
  | .jnd _ => none
  | .jnd2 _ => none
  | .jarr xs => (dumpsList xs).map (fun ss => "[" ++ joinSepArr ss ++ "]")
  | .jtup xs => (dumpsList xs).map (fun ss => "[" ++ joinSepArr ss ++ "]")
  | .jobj kvs => (dumpsKV kvs).map (fun ss => lcurly ++ joinSepArr ss ++ rcurly)

def dumpsList : List JVal → Option (List String)
  | [] => some []
  | x :: xs =>
    match dumps0 x, dumpsList xs with
    | some s, some ss => some (s :: ss)
    | _, _ => none

def dumpsKV : List (String × JVal) → Option (List String)
  | [] => some []
  | (k, v) :: xs =>
    match dumps0 v, dumpsKV xs with
    | some s, some ss => some ((jsonQuote k ++ ": " ++ s) :: ss)
    | _, _ => none
end

/-- json.dumps with the sort_keys flag. -/
def dumps (sk : Bool) (v : JVal) : Option String :=
  if sk then dumps0 (sortAll v) else dumps0 v

mutual
/-- The value conversion of preset_util.immutable_dict: dict values are
converted recursively, list values become tuples, numpy array values
become tuples of their tolist conversion, and all other values are
kept. -/
def immutable_conv : JVal → JVal
  | .jobj kvs => .jobj (immutable_dict kvs)
  | .jarr xs => .jtup xs
  | .jnd xs => .jtup (xs.map JVal.jnum)
  | .jnd2 xss => .jtup (xss.map (fun r => JVal.jarr (r.map JVal.jnum)))
  | v => v

/-- preset_util.immutable_dict: the value conversion applied to every
entry of the mapping. -/
def immutable_dict : List (String × JVal) → List (String × JVal)
  | [] => []
  | (k, v) :: rest => (k, immutable_conv v) :: immutable_dict rest
end

/- ---------------------------------------------------------------- -/
/- SHA-256 over byte lists                                          -/
/- ---------------------------------------------------------------- -/

def rotr32 (x n : Nat) : Nat :=
  ((x >>> n) ||| (x <<< (32 - n))) % 4294967296

def shaK : List Nat :=
  [1116352408, 1899447441, 3049323471, 3921009573, 961987163, 1508970993,
   2453635748, 2870763221, 3624381080, 310598401, 607225278, 1426881987,
   1925078388, 2162078206, 2614888103, 3248222580, 3835390401, 4022224774,
   264347078, 604807628, 770255983, 1249150122, 1555081692, 1996064986,
   2554220882, 2821834349, 2952996808, 3210313671, 3336571891, 3584528711,
   113926993, 338241895, 666307205, 773529912, 1294757372, 1396182291,
   1695183700, 1986661051, 2177026350, 2456956037, 2730485921, 2820302411,
   3259730800, 3345764771, 3516065817, 3600352804, 4094571909, 275423344,
   430227734, 506948616, 659060556, 883997877, 958139571, 1322822218,
   1537002063, 1747873779, 1955562222, 2024104815, 2227730452, 2361852424,
   2428436474, 2756734187, 3204031479, 3329325298]

def shaPad (msg : List Nat) : List Nat :=
  let len := msg.length
  let bitLen := len * 8
  let padZeros := (55 + 64 - len % 64) % 64
  msg ++ [0x80] ++ List.replicate padZeros 0 ++
    [(bitLen >>> 56) % 256, (bitLen >>> 48) % 256, (bitLen >>> 40) % 256, (bitLen >>> 32) % 256,
     (bitLen >>> 24) % 256, (bitLen >>> 16) % 256, (bitLen >>> 8) % 256, bitLen % 256]

def bytesToWords : List Nat → List Nat
  | a :: b :: c :: d :: rest => (a <<< 24 ||| b <<< 16 ||| c <<< 8 ||| d) :: bytesToWords rest
  | _ => []

def chunk16 : List Nat → List (List Nat)
  | a1 :: a2 :: a3 :: a4 :: a5 :: a6 :: a7 :: a8 :: a9 :: a10 :: a11 :: a12 :: a13 :: a14 :: a15 :: a16 :: rest =>
      [a1, a2, a3, a4, a5, a6, a7, a8, a9, a10, a11, a12, a13, a14, a15, a16] :: chunk16 rest
  | _ => []

def smallSigma0 (x : Nat) : Nat := (rotr32 x 7) ^^^ (rotr32 x 18) ^^^ (x >>> 3)

def smallSigma1 (x : Nat) : Nat := (rotr32 x 17) ^^^ (rotr32 x 19) ^^^ (x >>> 10)

def bigSigma0 (x : Nat) : Nat := (rotr32 x 2) ^^^ (rotr32 x 13) ^^^ (rotr32 x 22)

def bigSigma1 (x : Nat) : Nat := (rotr32 x 6) ^^^ (rotr32 x 11) ^^^ (rotr32 x 25)

def extendSched (w : List Nat) : Nat → List Nat
  | 0 => w
  | n + 1 =>
    let i := w.length
    let nw := (smallSigma1 (w.getD (i - 2) 0) + w.getD (i - 7) 0 +
               smallSigma0 (w.getD (i - 15) 0) + w.getD (i - 16) 0) % 4294967296
    extendSched (w ++ [nw]) n

def shaStep (st : List Nat) (kw : Nat × Nat) : List Nat :=
  match st with
  | [a, b, c, d, e, f, g, h0] =>
    let t1 := (h0 + bigSigma1 e + ((e &&& f) ^^^ ((4294967295 - e) &&& g)) + kw.1 + kw.2) % 4294967296
    let t2 := (bigSigma0 a + ((a &&& b) ^^^ (a &&& c) ^^^ (b &&& c))) % 4294967296
    [(t1 + t2) % 4294967296, a, b, c, (d + t1) % 4294967296, e, f, g]
  | _ => st

def shaCompress (h : List Nat) (block : List Nat) : List Nat :=
  let w := extendSched block 48
  let fin := (shaK.zip w).foldl shaStep h
  (h.zip fin).map (fun p => (p.1 + p.2) % 4294967296)

def sha256Words (msg : List Nat) : List Nat :=
  (chunk16 (bytesToWords (shaPad msg))).foldl shaCompress
    [1779033703, 3144134277, 1013904242, 2773480762, 1359893119, 2600822924, 528734635, 1541459225]

def wordToHex (n : Nat) : List Char :=
  [hexDigit ((n >>> 28) % 16), hexDigit ((n >>> 24) % 16), hexDigit ((n >>> 20) % 16),
   hexDigit ((n >>> 16) % 16), hexDigit ((n >>> 12) % 16), hexDigit ((n >>> 8) % 16),
   hexDigit ((n >>> 4) % 16), hexDigit (n % 16)]

/-- Lowercase hex digest of SHA-256, as hashlib hexdigest returns it. -/
def sha256hex (msg : List Nat) : String :=
  String.mk ((sha256Words msg).flatMap wordToHex)

def utf8Char (n : Nat) : List Nat :=
  if n < 0x80 then [n]
  else if n < 0x800 then [0xc0 + (n >>> 6), 0x80 + (n % 64)]
  else if n < 0x10000 then [0xe0 + (n >>> 12), 0x80 + ((n >>> 6) % 64), 0x80 + (n % 64)]
  else [0xf0 + (n >>> 18), 0x80 + ((n >>> 12) % 64), 0x80 + ((n >>> 6) % 64), 0x80 + (n % 64)]

/-- Python str.encode with encoding utf-8. -/
def strUtf8 (s : String) : List Nat := s.data.flatMap (fun c => utf8Char c.toNat)

/- ---------------------------------------------------------------- -/
/- The content hashes of preset_util                                -/
/- ---------------------------------------------------------------- -/

/-- preset_util.hash_dict: immutable_dict conversion, serialization with
sorted keys, utf-8 encoding, SHA-256 hex digest.  The chunked feeding of
the byte stream in the source is equivalent to hashing the whole byte
string.  none models the TypeError raised on unserializable input. -/
def hash_dict (d : List (String × JVal)) : Option String :=
  (dumps true (.jobj (immutable_dict d))).map (fun s => sha256hex (strUtf8 s))

/-- preset_util.hash_list: tuple conversion, serialization in insertion
order, utf-8 encoding, SHA-256 hex digest. -/
def hash_list (l : List JVal) : Option String :=
  (dumps false (.jtup l)).map (fun s => sha256hex (strUtf8 s))

deriving instance DecidableEq for Except

/- ---------------------------------------------------------------- -/
/- Python exceptions                                                -/
/- ---------------------------------------------------------------- -/

/-- The Python exceptions that can escape the embedded functions. -/
inductive Err : Type where
  | nameExists (msg : String)
  | keyError
  | indexError
  | typeError
  | valueError
  | attrError
  | stopIteration
deriving DecidableEq, Repr

/- ---------------------------------------------------------------- -/
/- Node trees (the live Blender graph handed to the subsystem)      -/
/- ---------------------------------------------------------------- -/

/-- A Blender node list: each node is either a plain node, carrying its
type string, its name, and the data that the kind-specific codec of the
source extracts from it, or a group node, whose type is the string GROUP
and which carries a nested node tree together with the links of that
nested tree. -/
inductive NT : Type where
  | nil : NT
  | plain (ntype : String) (nodeName : String) (data : List (String × JVal)) (rest : NT) : NT
  | group (nodeName : String) (data : List (String × JVal)) (sub : NT)
      (subLinks : List (Nat × Nat)) (rest : NT) : NT

/-- A node graph: the node tree name, its top level nodes, and the top
level links given as pairs of local node positions. -/
structure Graph where
  gname : String
  nodes : NT
  links : List (Nat × Nat)

/-- preset_util.node_scan: depth first walk collecting the index path and
the type string of every node, recursing into group nodes right after the
group node itself. -/
def node_scan : List Nat → Nat → NT → List (List Nat) × List String
  | _, _, .nil => ([], [])
  | pfx, i, .plain t _ _ rest =>
    let r := node_scan pfx (i + 1) rest
    ((pfx ++ [i]) :: r.1, t :: r.2)
  | pfx, i, .group _ _ sub _ rest =>
    let s := node_scan (pfx ++ [i]) 0 sub
    let r := node_scan pfx (i + 1) rest
    ((pfx ++ [i]) :: (s.1 ++ r.1), "GROUP" :: (s.2 ++ r.2))

/-- preset_util.node_link_scan restricted to the nested trees: the links
of every group node, in node order, each endpoint resolved to its full
index path.  The source matches link endpoints by object identity against
the flat node list built by node_scan, which yields exactly the path of
the endpoint inside its own tree. -/
def node_link_scan : List Nat → Nat → NT → List (List Nat × List Nat)
  | _, _, .nil => []
  | pfx, i, .plain _ _ _ rest => node_link_scan pfx (i + 1) rest
  | pfx, i, .group _ _ sub slinks rest =>
    (slinks.map (fun ab => (pfx ++ [i, ab.1], pfx ++ [i, ab.2]))) ++
    node_link_scan (pfx ++ [i]) 0 sub ++ node_link_scan pfx (i + 1) rest

/-- preset_util.get_all_nodes: the structural scan dictionary with keys
indices, types and links, the nodes entry having been deleted.  This is
the value hashed to obtain the structural identity of a graph. -/
def get_all_nodes (g : Graph) : List (String × JVal) :=
  let ns := node_scan [] 0 g.nodes
  let ls := (g.links.map (fun ab => ([ab.1], [ab.2]))) ++ node_link_scan [] 0 g.nodes
  [("indices", .jarr (ns.1.map (fun p => .jarr [.jarr (p.map (fun n => JVal.jnum (n : Int)))]))),
   ("types", .jarr (ns.2.map JVal.jstr)),
   ("links", .jarr (ls.map (fun ft => .jarr [.jarr (ft.1.map (fun n => JVal.jnum (n : Int))),
                                             .jarr (ft.2.map (fun n => JVal.jnum (n : Int)))])))]

/-- preset_util.get_node_structure_list: depth first list of the index
paths of all nodes of the given type, recursing into groups. -/
def get_node_structure_list (ntype : String) : List Nat → Nat → NT → List (List Nat)
  | _, _, .nil => []
  | pfx, i, .plain t _ _ rest =>
    (if t = ntype then [pfx ++ [i]] else []) ++ get_node_structure_list ntype pfx (i + 1) rest
  | pfx, i, .group _ _ sub _ rest =>
    (if ntype = "GROUP" then [pfx ++ [i]] else []) ++
    get_node_structure_list ntype (pfx ++ [i]) 0 sub ++
    get_node_structure_list ntype pfx (i + 1) rest

def gnSliceTypes : List String :=
  ["CURVE_FLOAT", "VALTORGB", "CURVE_VEC", "CURVE_RGB", "INPUT_COLOR"]

def matSliceTypes : List String :=
  ["RGB", "CURVE_FLOAT", "VALTORGB", "CURVE_VEC", "CURVE_RGB"]

/-- preset_util.node_type_dict: for every special node type of the
classification, the list of index paths of its occurrences; types without
occurrences are dropped.  The two callers pass exactly the classification
strings Material and Geometry_Node. -/
def node_type_dict (g : Graph) (classification : String) : List (String × List (List Nat)) :=
  let slice := if classification = "Material" then matSliceTypes else gnSliceTypes
  (slice.map (fun t => (t, get_node_structure_list t [] 0 g.nodes))).filter
    (fun kv => kv.2.length > 0)

/-- One resolved node of a tree: type, name, codec data, and for group
nodes the nested tree with its links. -/
structure NodeView where
  ntype : String
  nodeName : String
  data : List (String × JVal)
  sub : Option (NT × List (Nat × Nat))

/-- Positional indexing into a node collection, as nodes with an integer
subscript in Python. -/
def ntNth : NT → Nat → Option NodeView
  | .nil, _ => none
  | .plain t nm d _, 0 => some ⟨t, nm, d, none⟩
  | .group nm d sub sl _, 0 => some ⟨"GROUP", nm, d, some (sub, sl)⟩
  | .plain _ _ _ rest, n + 1 => ntNth rest n
  | .group _ _ _ _ rest, n + 1 => ntNth rest n

/-- Lookup of a node collection by node name, as nodes with a string
subscript in Python. -/
def ntByName : NT → String → Option NodeView
  | .nil, _ => none
  | .plain t nm d rest, s =>
    if nm = s then some ⟨t, nm, d, none⟩ else ntByName rest s
  | .group nm d sub sl rest, s =>
    if nm = s then some ⟨"GROUP", nm, d, some (sub, sl)⟩ else ntByName rest s

/-- The attribute chains built by get_mat_group_groups and
get_node_group_groups: every step of the index path is formatted into the
code text as a decimal string and then used as a NAME subscript of the
node collection; missing names raise KeyError, and a step below a node
that is not a group fails on the missing node_tree attribute. -/
def resolveChainNames : NT → List String → Except Err NodeView
  | _, [] => .error .keyError
  | nt, [s] =>
    match ntByName nt s with
    | some v => .ok v
    | none => .error .keyError
  | nt, s :: rest =>
    match ntByName nt s with
    | none => .error .keyError
    | some v =>
      match v.sub with
      | some p => resolveChainNames p.1 rest
      | none => .error .attrError

/-- The data the kind-specific codec extracts for the node at the given
address: single-step addresses are positional, longer addresses go
through the name chains of get_mat_group_groups or get_node_group_groups,
and applying a codec to a node of another kind fails on the attributes
the codec reads. -/
def codec_node_data (g : Graph) (ntype : String) (addr : List Nat) :
    Except Err (List (String × JVal)) :=
  match addr with
  | [] => .error .indexError
  | [a] =>
    match ntNth g.nodes a with
    | none => .error .indexError
    | some v => if v.ntype = ntype then .ok v.data else .error .attrError
  | _ =>
    match resolveChainNames g.nodes (addr.map (fun n => toString n)) with
    | .error e => .error e
    | .ok v => if v.ntype = ntype then .ok v.data else .error .attrError


/- ---------------------------------------------------------------- -/
/- The HDF5 store                                                   -/
/- ---------------------------------------------------------------- -/

/-- One HDF5 group seen as a table: insertion ordered association list
from dataset key to entry. -/
abbrev Table (entry : Type) : Type := List (String × entry)

def tLookup {entry : Type} (t : Table entry) (k : String) : Option entry :=
  match t with
  | [] => none
  | e :: rest => if e.1 = k then some e.2 else tLookup rest k

def tHasKey {entry : Type} (t : Table entry) (k : String) : Bool :=
  (tLookup t k).isSome

/-- preset_util.get_names: the name attribute of every entry, in table
order; entries without the attribute yield none. -/
def get_names {entry : Type} (getN : entry → Option String) (t : Table entry) :
    List (Option String) :=
  t.map (fun e => getN e.2)

/-- Membership of a string in a get_names run. -/
def nameTaken {entry : Type} (getN : entry → Option String) (t : Table entry)
    (nm : String) : Bool :=
  (get_names getN t).any (fun n => n = some nm)

def tSetEntry {entry : Type} (t : Table entry) (k : String) (e : entry) : Table entry :=
  t.map (fun p => if p.1 = k then (p.1, e) else p)

/-- json.loads of a json.dumps output: tuples come back as lists and key
order is preserved; numpy arrays are not serializable, so none models the
TypeError of the dumps call. -/
def normJson : JVal → Option JVal :=
  normV
where
  normV : JVal → Option JVal
    | .jnull => some .jnull
    | .jbool b => some (.jbool b)
    | .jnum n => some (.jnum n)
    | .jstr s => some (.jstr s)
    | .jnd _ => none
    | .jnd2 _ => none
    | .jarr xs => (normL xs).map .jarr
    | .jtup xs => (normL xs).map .jarr
    | .jobj kvs => (normKV kvs).map .jobj
  normL : List JVal → Option (List JVal)
    | [] => some []
    | x :: xs =>
      match normV x, normL xs with
      | some y, some ys => some (y :: ys)
      | _, _ => none
  normKV : List (String × JVal) → Option (List (String × JVal))
    | [] => some []
    | (k, v) :: xs =>
      match normV v, normKV xs with
      | some y, some ys => some ((k, y) :: ys)
      | _, _ => none

/-- GraphIdentity entry of an INFO table: the special node classification
payload plus the name, class and user attributes. -/
structure InfoE where
  payload : JVal
  iname : Option String
  icls : Option String
  iuser : Option String

/-- ValuesRecord entry of a DATA table. -/
structure DataE where
  payload : JVal
  dname : Option String

/-- NodeRecord entry of the NODES table. -/
structure NodeE where
  payload : JVal
  nodeNm : Option String
  ntyp : Option String

/-- PresetTransaction entry of a TRANSACTIONS table: the stored triple of
graph id, values id and node stack id, plus the name attribute. -/
structure TransE where
  triple : List String
  tname : Option String

/-- Physics preset entry. -/
structure PhyE where
  payload : JVal
  phname : Option String

/-- Hair points entry: the stored point rows and the name attribute.  The
model restricts coordinates to integers; the claims under study never
depend on the numeric contents. -/
structure HairE where
  points : List (List Int)
  hname : Option String

/-- The whole Presets.hfdb file: the tables of both asset classes, the
shared NODES and NODE_STACK tables, the per node type index datasets
under PRESETS, the physics tables and the hair tables. -/
structure Store where
  matInfo : Table InfoE
  matData : Table DataE
  matTrans : Table TransE
  matFull : Table (List String)
  matValues : Table (List String)
  gnInfo : Table InfoE
  gnData : Table DataE
  gnTrans : Table TransE
  gnFull : Table (List String)
  gnValues : Table (List String)
  nodesTbl : Table NodeE
  nodeStack : Table (List (String × List String))
  presetIdx : Table (List String)
  phyCloth : Table PhyE
  phySoft : Table PhyE
  phyColl : Table PhyE
  hairPoints : Table HairE
  hairSizes : Table (List Int)

def node_types6 : List String :=
  ["RGB", "CURVE_FLOAT", "VALTORGB", "CURVE_VEC", "CURVE_RGB", "INPUT_COLOR"]

/-- preset_util.create_preset_files on a fresh file: all tables empty,
with one empty index dataset per special node type. -/
def create_preset_files : Store :=
  { matInfo := [], matData := [], matTrans := [], matFull := [], matValues := [],
    gnInfo := [], gnData := [], gnTrans := [], gnFull := [], gnValues := [],
    nodesTbl := [], nodeStack := [],
    presetIdx := node_types6.map (fun t => (t, [])),
    phyCloth := [], phySoft := [], phyColl := [],
    hairPoints := [], hairSizes := [] }

/-- preset_util.node_type_abbr_dict. -/
def node_type_abbr_dict : Table String :=
  [("RGB", "RB"), ("CURVE_FLOAT", "FC"), ("VALTORGB", "CR"),
   ("CURVE_VEC", "VC"), ("CURVE_RGB", "RC"), ("INPUT_COLOR", "IC")]

def gmsnAux (base : String) : List (Option String) → Int → Except Err Int
  | [], num => .ok num
  | none :: rest, num => gmsnAux base rest num
  | some n :: rest, num =>
    if n = "" then gmsnAux base rest num
    else
      let ns := pySplitDot n
      if ns.headD "" = base then
        match ns.get? 1 with
        | some s1 =>
          match pyInt? s1 with
          | none => .error .valueError
          | some i => gmsnAux base rest (if i > num then i else num)
        | none => gmsnAux base rest num
      else gmsnAux base rest num

/-- preset_util.get_max_series_num: the largest series number among the
names sharing the base of the given name; a name whose series part is not
an integer raises ValueError. -/
def get_max_series_num (name : String) (data : List (Option String)) : Except Err Int :=
  gmsnAux ((pySplitDot name).headD "") data 0

/-- preset_util.get_match_series_highest: the base of the name followed
by the next series number, zero filled to width three. -/
def get_match_series_highest (name : String) (data : List (Option String)) :
    Except Err String :=
  match get_max_series_num name data with
  | .error e => .error e
  | .ok ms => .ok ((pySplitDot name).headD "" ++ "." ++ zfill 3 (toString (ms + 1)))

/-- preset_util.change_preset_name over one table: fails with
NameExistsError when the new name is already a display name of the table,
fails with KeyError when the id is absent, and otherwise stores the new
name and returns the previous one.  The name getter and setter stand for
the attrs access of the source. -/
def change_preset_name {entry : Type} (getN : entry → Option String)
    (setN : entry → String → entry) (t : Table entry) (id_ nm : String) :
    Except Err (Option String) × Table entry :=
  if nameTaken getN t nm then
    (.error (.nameExists ("[Preset] " ++ nm ++ " already in use. Please choose another name.")), t)
  else
    match tLookup t id_ with
    | none => (.error .keyError, t)
    | some a => (.ok (getN a), tSetEntry t id_ (setN a nm))

/-- Encoding of a freshly computed node_type_dict as the json payload
stored in an INFO dataset. -/
def encodeNtd (ntd : List (String × List (List Nat))) : JVal :=
  .jobj (ntd.map (fun kv =>
    (kv.1, .jarr (kv.2.map (fun a => .jarr (a.map (fun n => JVal.jnum (n : Int))))))))

def decodeAddr : List JVal → Option (List Nat)
  | [] => some []
  | .jnum n :: rest => (decodeAddr rest).map (fun l => n.toNat :: l)
  | _ => none

def decodeAddrList : List JVal → Option (List (List Nat))
  | [] => some []
  | .jarr a :: rest =>
    match decodeAddr a, decodeAddrList rest with
    | some p, some ps => some (p :: ps)
    | _, _ => none
  | _ => none

/-- Reading a stored INFO payload back as an address classification, as
the source does after json.loads; payloads of another shape make the
iteration over node addresses fail, modelled by TypeError. -/
def decodeNtd : JVal → Except Err (List (String × List (List Nat)))
  | .jobj kvs => decodeNtdKVs kvs
  | _ => .error .typeError
where
  decodeNtdKVs : List (String × JVal) → Except Err (List (String × List (List Nat)))
    | [] => .ok []
    | (k, .jarr xs) :: rest =>
      match decodeAddrList xs with
      | none => .error .typeError
      | some ps =>
        match decodeNtdKVs rest with
        | .error e => .error e
        | .ok tail => .ok ((k, ps) :: tail)
    | _ => .error .typeError

/- ---------------------------------------------------------------- -/
/- The preset processing functions                                  -/
/- ---------------------------------------------------------------- -/

/-- Append of a node id to the PRESETS index dataset of a node type when
it is not yet listed; a type outside the created datasets raises
KeyError. -/
def presetIdxAppend (st : Store) (ntype nid : String) : Except Err Store :=
  match tLookup st.presetIdx ntype with
  | none => .error .keyError
  | some l =>
    if l.contains nid then .ok st
    else .ok { st with presetIdx := tSetEntry st.presetIdx ntype (l ++ [nid]) }

/-- The NODES section shared verbatim by material_preset_processing and
geometry_node_preset_processing: one special node type, walking its
addresses; for every address the codec data is extracted and hashed, a
NodeRecord is created if absent (suggested name from the running dataset
count, series suffixed on collision), and the id is appended to the
PRESETS index of the type. -/
def nodes_inner (g : Graph) (ntype abbr : String) :
    List (List Nat) → Nat → List String → Store → Except Err (List String) × Store
  | [], _, acc, st => (.ok acc, st)
  | addr :: rest, ct, acc, st =>
    match codec_node_data g ntype addr with
    | .error e => (.error e, st)
    | .ok data =>
      match hash_dict data with
      | none => (.error .typeError, st)
      | some nid =>
        if tHasKey st.nodesTbl nid then
          match presetIdxAppend st ntype nid with
          | .error e => (.error e, st)
          | .ok st1 => nodes_inner g ntype abbr rest ct (acc ++ [nid]) st1
        else
          match normJson (.jobj data) with
          | none => (.error .typeError, st)
          | some pv =>
            let st1 := { st with nodesTbl := st.nodesTbl ++ [(nid, ⟨pv, none, none⟩)] }
            let sug := abbr ++ "_" ++ toString ct
            let named : Except Err String :=
              if nameTaken NodeE.nodeNm st1.nodesTbl sug then
                get_match_series_highest sug (get_names NodeE.nodeNm st1.nodesTbl)
              else .ok sug
            match named with
            | .error e => (.error e, st1)
            | .ok nm =>
              let st2 := { st1 with
                nodesTbl := tSetEntry st1.nodesTbl nid ⟨pv, some nm, some ntype⟩ }
              match presetIdxAppend st2 ntype nid with
              | .error e => (.error e, st2)
              | .ok st3 => nodes_inner g ntype abbr rest (ct + 1) (acc ++ [nid]) st3

/-- The NODES section over all special node types of the classification
dictionary, accumulating the node_ids mapping in entry order. -/
def nodes_loop (g : Graph) :
    List (String × List (List Nat)) → List (String × List String) → Store →
    Except Err (List (String × List String)) × Store
  | [], acc, st => (.ok acc, st)
  | (ntype, addrs) :: rest, acc, st =>
    match tLookup node_type_abbr_dict ntype with
    | none => (.error .keyError, st)
    | some abbr =>
      match tLookup st.presetIdx ntype with
      | none => (.error .keyError, st)
      | some idxList =>
        match nodes_inner g ntype abbr addrs idxList.length [] st with
        | (.error e, st1) => (.error e, st1)
        | (.ok nis, st1) => nodes_loop g rest (acc ++ [(ntype, nis)]) st1

/-- The DATA section of material_preset_processing, lines 1096 to 1104:
when the values id is new, the serialized values snapshot is stored under
it with the proposed preset name as suggested display name, series
suffixed when that name is already a display name of the DATA table. -/
def mat_data_step (st1 : Store) (values_id : String) (node_values : List JVal)
    (preset_name : String) : Except Err Unit × Store :=
  if tHasKey st1.matData values_id then (.ok (), st1)
  else
    match normJson (.jarr node_values) with
    | none => (.error .typeError, st1)
    | some pv =>
      let st2 := { st1 with matData := st1.matData ++ [(values_id, ⟨pv, none⟩)] }
      let named : Except Err String :=
        if nameTaken DataE.dname st2.matData preset_name then
          get_match_series_highest preset_name (get_names DataE.dname st2.matData)
        else .ok preset_name
      match named with
      | .error e => (.error e, st2)
      | .ok nm =>
        (.ok (), { st2 with matData := tSetEntry st2.matData values_id ⟨pv, some nm⟩ })

/-- The DATA section of geometry_node_preset_processing, lines 1190 to
1198, identical to the material one up to the table and the values
container. -/
def gn_data_step (st1 : Store) (values_id : String) (node_values : List (String × JVal))
    (preset_name : String) : Except Err Unit × Store :=
  if tHasKey st1.gnData values_id then (.ok (), st1)
  else
    match normJson (.jobj node_values) with
    | none => (.error .typeError, st1)
    | some pv =>
      let st2 := { st1 with gnData := st1.gnData ++ [(values_id, ⟨pv, none⟩)] }
      let named : Except Err String :=
        if nameTaken DataE.dname st2.gnData preset_name then
          get_match_series_highest preset_name (get_names DataE.dname st2.gnData)
        else .ok preset_name
      match named with
      | .error e => (.error e, st2)
      | .ok nm =>
        (.ok (), { st2 with gnData := tSetEntry st2.gnData values_id ⟨pv, some nm⟩ })

/-- preset_util.material_preset_processing, lines 1069 to 1161: the
material save transaction.  The flat values snapshot the source computes
with format_mat_node_data from the live material is an input here, since
it reads host state outside the subsystem; everything from the name
uniqueness check on is translated statement by statement. -/
def material_preset_processing (st : Store) (material : Graph) (node_values : List JVal)
    (preset_name user_ : String) : Except Err (Bool × Option String) × Store :=
  if nameTaken TransE.tname st.matTrans preset_name then
    (.error (.nameExists ("[Preset Name] " ++ preset_name ++ " already exists. Please choose another name.")), st)
  else
    match hash_dict (get_all_nodes material) with
    | none => (.error .typeError, st)
    | some mat_id =>
      match hash_list node_values with
      | none => (.error .typeError, st)
      | some values_id =>
        let infoStep : Except Err (List (String × List (List Nat))) × Store :=
          match tLookup st.matInfo mat_id with
          | none =>
            let ntd := node_type_dict material "Material"
            (.ok ntd, { st with matInfo := st.matInfo ++
              [(mat_id, ⟨encodeNtd ntd, some ((pySplitDot material.gname).headD ""),
                         some "Material", some user_⟩)] })
          | some e =>
            match decodeNtd e.payload with
            | .error er => (.error er, st)
            | .ok ntd => (.ok ntd, st)
        match infoStep with
        | (.error e, st1) => (.error e, st1)
        | (.ok ntd_, st1) =>
          match mat_data_step st1 values_id node_values preset_name with
          | (.error e, st2) => (.error e, st2)
          | (.ok _, st2) =>
            match nodes_loop material ntd_ [] st2 with
            | (.error e, st3) => (.error e, st3)
            | (.ok node_ids, st3) =>
              match hash_dict (node_ids.map (fun kv => (kv.1, JVal.jarr (kv.2.map JVal.jstr)))) with
              | none => (.error .typeError, st3)
              | some ni_id =>
                let st4 :=
                  if tHasKey st3.nodeStack ni_id then st3
                  else { st3 with nodeStack := st3.nodeStack ++ [(ni_id, node_ids)] }
                match hash_list [JVal.jstr mat_id, JVal.jstr values_id, JVal.jstr ni_id] with
                | none => (.error .typeError, st4)
                | some pid =>
                  let st5 :=
                    if tHasKey st4.matTrans pid then st4
                    else { st4 with matTrans := st4.matTrans ++
                      [(pid, ⟨[mat_id, values_id, ni_id], some preset_name⟩)] }
                  match tLookup st5.matTrans pid with
                  | none => (.error .keyError, st5)
                  | some pentry =>
                    let pname := pentry.tname
                    match tLookup st5.matFull mat_id with
                    | none =>
                      (.ok (true, pname),
                       { st5 with matFull := st5.matFull ++ [(mat_id, [pid])],
                                  matValues := st5.matValues ++ [(mat_id, [values_id])] })
                    | some ful =>
                      let saved := !(ful.contains pid)
                      let st6 :=
                        if ful.contains pid then st5
                        else { st5 with matFull := tSetEntry st5.matFull mat_id (ful ++ [pid]) }
                      match tLookup st6.matValues mat_id with
                      | none => (.error .keyError, st6)
                      | some vl =>
                        let st7 :=
                          if vl.contains values_id then st6
                          else { st6 with matValues := tSetEntry st6.matValues mat_id (vl ++ [values_id]) }
                        (.ok (saved, pname), st7)

/-- preset_util.geometry_node_preset_processing, lines 1164 to 1255: the
geometry node save transaction.  The flat values dictionary the source
reads from the live modifier through get_node_group_input_data is an
input here; everything from the name uniqueness check on is translated
statement by statement. -/
def geometry_node_preset_processing (st : Store) (node_group : Graph)
    (node_values : List (String × JVal)) (preset_name user_ : String) :
    Except Err (Bool × Option String) × Store :=
  if nameTaken TransE.tname st.gnTrans preset_name then
    (.error (.nameExists ("[Preset Name] " ++ preset_name ++ " already exists. Please choose another name.")), st)
  else
    match hash_dict (get_all_nodes node_group) with
    | none => (.error .typeError, st)
    | some ng_id =>
      match hash_dict node_values with
      | none => (.error .typeError, st)
      | some values_id =>
        let infoStep : Except Err (List (String × List (List Nat))) × Store :=
          match tLookup st.gnInfo ng_id with
          | none =>
            let ntd := node_type_dict node_group "Geometry_Node"
            (.ok ntd, { st with gnInfo := st.gnInfo ++
              [(ng_id, ⟨encodeNtd ntd, some ((pySplitDot node_group.gname).headD ""),
                        some "Geometry_Node", some user_⟩)] })
          | some e =>
            match decodeNtd e.payload with
            | .error er => (.error er, st)
            | .ok ntd => (.ok ntd, st)
        match infoStep with
        | (.error e, st1) => (.error e, st1)
        | (.ok ntd_, st1) =>
          match gn_data_step st1 values_id node_values preset_name with
          | (.error e, st2) => (.error e, st2)
          | (.ok _, st2) =>
            match nodes_loop node_group ntd_ [] st2 with
            | (.error e, st3) => (.error e, st3)
            | (.ok node_ids, st3) =>
              match hash_dict (node_ids.map (fun kv => (kv.1, JVal.jarr (kv.2.map JVal.jstr)))) with
              | none => (.error .typeError, st3)
              | some ni_id =>
                let st4 :=
                  if tHasKey st3.nodeStack ni_id then st3
                  else { st3 with nodeStack := st3.nodeStack ++ [(ni_id, node_ids)] }
                match hash_list [JVal.jstr ng_id, JVal.jstr values_id, JVal.jstr ni_id] with
                | none => (.error .typeError, st4)
                | some pid =>
                  let st5 :=
                    if tHasKey st4.gnTrans pid then st4
                    else { st4 with gnTrans := st4.gnTrans ++
                      [(pid, ⟨[ng_id, values_id, ni_id], some preset_name⟩)] }
                  match tLookup st5.gnTrans pid with
                  | none => (.error .keyError, st5)
                  | some pentry =>
                    let pname := pentry.tname
                    match tLookup st5.gnFull ng_id with
                    | none =>
                      (.ok (true, pname),
                       { st5 with gnFull := st5.gnFull ++ [(ng_id, [pid])],
                                  gnValues := st5.gnValues ++ [(ng_id, [values_id])] })
                    | some ful =>
                      let saved := !(ful.contains pid)
                      let st6 :=
                        if ful.contains pid then st5
                        else { st5 with gnFull := tSetEntry st5.gnFull ng_id (ful ++ [pid]) }
                      match tLookup st6.gnValues ng_id with
                      | none => (.error .keyError, st6)
                      | some vl =>
                        let st7 :=
                          if vl.contains values_id then st6
                          else { st6 with gnValues := tSetEntry st6.gnValues ng_id (vl ++ [values_id]) }
                        (.ok (saved, pname), st7)

/-- The PHYSICS group of the store: the table selected by a physics type
string, matching the subscript access of the source. -/
def physics_table (st : Store) (ptype : String) : Option (Table PhyE) :=
  if ptype = "CLOTH" then some st.phyCloth
  else if ptype = "SOFT_BODY" then some st.phySoft
  else if ptype = "COLLISION" then some st.phyColl
  else none

/-- preset_util.physics_preset_processing, lines 2225 to 2240: save of a
physics settings snapshot into the table selected by the physics type;
an unknown type raises KeyError on the group lookup. -/
def physics_preset_processing (st : Store) (ptype : String)
    (data : List (String × JVal)) (preset_name : String) :
    Except Err (Bool × Option String) × Store :=
  match physics_table st ptype with
  | none => (.error .keyError, st)
  | some t =>
    if nameTaken PhyE.phname t preset_name then
      (.error (.nameExists ("[Preset Name] " ++ preset_name ++ " already exists. Please choose another name.")), st)
    else
      match hash_dict data with
      | none => (.error .typeError, st)
      | some phy_id =>
        if tHasKey t phy_id then
          (.ok (false, (tLookup t phy_id).bind PhyE.phname), st)
        else
          match normJson (.jobj data) with
          | none => (.error .typeError, st)
          | some pv =>
            let t1 := t ++ [(phy_id, (⟨pv, some preset_name⟩ : PhyE))]
            let st1 :=
              if ptype = "CLOTH" then { st with phyCloth := t1 }
              else if ptype = "SOFT_BODY" then { st with phySoft := t1 }
              else { st with phyColl := t1 }
            (.ok (true, some preset_name), st1)

/-- preset_util.collision_preset_processing, lines 2261 to 2276: save of
a collision settings snapshot into the COLLISION table. -/
def collision_preset_processing (st : Store) (data : List (String × JVal))
    (preset_name : String) : Except Err (Bool × Option String) × Store :=
  if nameTaken PhyE.phname st.phyColl preset_name then
    (.error (.nameExists ("[Preset Name] " ++ preset_name ++ " already exists. Please choose another name.")), st)
  else
    match hash_dict data with
    | none => (.error .typeError, st)
    | some phy_id =>
      if tHasKey st.phyColl phy_id then
        (.ok (false, (tLookup st.phyColl phy_id).bind PhyE.phname), st)
      else
        match normJson (.jobj data) with
        | none => (.error .typeError, st)
        | some pv =>
          (.ok (true, some preset_name),
           { st with phyColl := st.phyColl ++ [(phy_id, ⟨pv, some preset_name⟩)] })

/-- preset_util.hair_preset_processing, lines 2300 to 2317: save of a
hair point cloud; the uniqueness check runs against the POINTS table, the
content hash covers the points and sizes arrays. -/
def hair_preset_processing (st : Store) (points : List (List Int)) (sizes : List Int)
    (preset_name : String) : Except Err (Bool × Option String) × Store :=
  if nameTaken HairE.hname st.hairPoints preset_name then
    (.error (.nameExists ("[Preset Name] " ++ preset_name ++ " already exists. Please choose another name.")), st)
  else
    match hash_dict [("points", JVal.jnd2 points), ("sizes", JVal.jnd sizes)] with
    | none => (.error .typeError, st)
    | some h_id =>
      if tHasKey st.hairPoints h_id then
        (.ok (false, (tLookup st.hairPoints h_id).bind HairE.hname), st)
      else
        (.ok (true, some preset_name),
         { st with hairPoints := st.hairPoints ++ [(h_id, ⟨points, some preset_name⟩)],
                   hairSizes := st.hairSizes ++ [(h_id, sizes)] })

/-- Positional resolution of a full index path through nested groups;
this is the position at which match_node_structure_gen finds the node by
identity, so an unresolvable path models the StopIteration of the
exhausted generator. -/
def ntAtPath : NT → List Nat → Option NodeView
  | _, [] => none
  | nt, [a] => ntNth nt a
  | nt, a :: rest =>
    match ntNth nt a with
    | none => none
    | some v =>
      match v.sub with
      | some p => ntAtPath p.1 rest
      | none => none

/-- preset_util.node_preset_processing, lines 1039 to 1066: save of the
sub-state of one special node under a user chosen name.  The node the
operator passes is located by its index path. -/
def node_preset_processing (st : Store) (g : Graph) (nodePath : List Nat)
    (preset_name : String) : Except Err (Bool × Option String) × Store :=
  match ntAtPath g.nodes nodePath with
  | none => (.error .stopIteration, st)
  | some v =>
    let node_type := v.ntype
    if !(tHasKey node_type_abbr_dict node_type) then (.error .keyError, st)
    else
      match codec_node_data g node_type nodePath with
      | .error e => (.error e, st)
      | .ok data =>
        match hash_dict data with
        | none => (.error .typeError, st)
        | some nid =>
          if nameTaken NodeE.nodeNm st.nodesTbl preset_name then
            (.error (.nameExists ("[Node Preset] " ++ preset_name ++ " already exists. Please choose another name.")), st)
          else
            if tHasKey st.nodesTbl nid then
              (.ok (false, (tLookup st.nodesTbl nid).bind NodeE.nodeNm), st)
            else
              match tLookup st.presetIdx node_type with
              | none => (.error .keyError, st)
              | some idxList =>
                match normJson (.jobj data) with
                | none => (.error .typeError, st)
                | some pv =>
                  let st1 := { st with
                    nodesTbl := st.nodesTbl ++ [(nid, ⟨pv, some preset_name, some node_type⟩)] }
                  let st2 :=
                    if idxList.contains nid then st1
                    else { st1 with
                      presetIdx := tSetEntry st1.presetIdx node_type (idxList ++ [nid]) }
                  (.ok (true, none), st2)

/- ---------------------------------------------------------------- -/
/- The archive transaction wrapper                                  -/
/- ---------------------------------------------------------------- -/

/-- The outer archive and the scratch directory next to it: the entry
content inside Presets.zip and the extracted temp file when present. -/
structure Zip where
  entry : Option Store
  temp : Option Store

/-- preset_util.modify_in_zip, lines 889 to 906: extract the entry to a
temp file, run the mutation on it, recompress the mutated file into the
archive, and delete the temp file.  The enclosing try swallows every
exception; the handler deletes the temp file when it exists and the
function then returns None.  The ok-or-none result models the value the
caller receives; the error alternative of the result type is what a
propagating exception would be, and is never produced. -/
def modify_in_zip {β : Type} (z : Zip) (f : Store → Except Err β × Store) :
    Except Err (Option β) × Zip :=
  match z.entry with
  | none => (.ok none, { entry := z.entry, temp := none })
  | some st =>
    match f st with
    | (.error _, _) => (.ok none, { entry := z.entry, temp := none })
    | (.ok b, st1) => (.ok (some b), { entry := some st1, temp := none })

/- ---------------------------------------------------------------- -/
/- The save operators (validation gate and dispatch)                -/
/- ---------------------------------------------------------------- -/

/-- Operator outcome as reported to the host. -/
inductive OpResult : Type where
  | finished : OpResult
  | cancelled : OpResult
deriving DecidableEq, Repr

/-- The body shared by every save operator after its inputs are read:
the three preset name checks, then the dispatch of the processing
function through modify_in_zip, a None result or a False saved flag
reporting cancellation. -/
def save_operator_body {β : Type} (z : Zip) (preset_name : String)
    (proc : Store → Except Err (Bool × β) × Store) : OpResult × Zip :=
  if is_string_blank preset_name then (.cancelled, z)
  else if string_has_space preset_name || string_startswith_space preset_name then
    (.cancelled, z)
  else if pyUpper preset_name = "NONE" then (.cancelled, z)
  else
    match modify_in_zip z proc with
    | (.ok none, z1) => (.cancelled, z1)
    | (.ok (some r), z1) => (if r.1 then .finished else .cancelled, z1)
    | (.error _, z1) => (.cancelled, z1)

/-- preset_util.HAIRFACTORY_OT_save_node.execute, lines 2359 to 2391:
name validation and dispatch of node_preset_processing. -/
def save_node_execute (z : Zip) (g : Graph) (nodePath : List Nat)
    (preset_name : String) : OpResult × Zip :=
  save_operator_body z preset_name
    (fun st => node_preset_processing st g nodePath preset_name)

/-- preset_util.HAIRFACTORY_OT_save_mat.execute, lines 2972 to 3002:
name validation and dispatch of material_preset_processing. -/
def save_mat_execute (z : Zip) (material : Graph) (node_values : List JVal)
    (preset_name user_ : String) : OpResult × Zip :=
  save_operator_body z preset_name
    (fun st => material_preset_processing st material node_values preset_name user_)

/- ---------------------------------------------------------------- -/
/- Export and import                                                -/
/- ---------------------------------------------------------------- -/

/-- The export document of one material or geometry node preset, as
written to json by the export operators and handed back by read_json
on importing: the preset name and id, the stored transaction triple, the
group attributes, the node stack mapping, the values payload and the
per node type entry lists. -/
structure PresetDoc where
  pname : Option String
  pid : String
  transaction : List String
  docGname : Option String
  docGclass : Option String
  docGuser : Option String
  nodeStackDoc : List (String × List String)
  valuesData : JVal
  nodesData : List (String × List (List JVal))

def jOfOptStr : Option String → JVal
  | some s => .jstr s
  | none => .jnull

def exportEntriesAux (st : Store) (nst : Table (List String)) (ntype : String) :
    List JVal → Nat → Except Err (List (List JVal))
  | [], _ => .ok []
  | n :: rest, i =>
    match tLookup nst ntype with
    | none => .error .keyError
    | some ids =>
      match ids.get? i with
      | none => .error .indexError
      | some nid =>
        match tLookup st.nodesTbl nid with
        | none => .error .keyError
        | some ne =>
          match exportEntriesAux st nst ntype rest (i + 1) with
          | .error e => .error e
          | .ok tail => .ok ([n, ne.payload, jOfOptStr ne.nodeNm, .jstr nid] :: tail)

def exportNdata (st : Store) (nst : Table (List String)) :
    List (String × JVal) → Except Err (List (String × List (List JVal)))
  | [] => .ok []
  | (ntype, .jarr xs) :: rest =>
    match exportEntriesAux st nst ntype xs 0 with
    | .error e => .error e
    | .ok entries =>
      match exportNdata st nst rest with
      | .error e => .error e
      | .ok tail => .ok ((ntype, entries) :: tail)
  | _ => .error .typeError

/-- preset_util.export_gn_preset_data_by_preset_id, lines 1541 to 1558:
the self contained export document of one geometry node preset, built
from the transaction triple, the INFO attributes and payload, the node
stack, the referenced NodeRecords and the values payload. -/
def export_gn_preset_data_by_preset_id (st : Store) (id_ : String) :
    Except Err PresetDoc :=
  match tLookup st.gnTrans id_ with
  | none => .error .keyError
  | some te =>
    match te.triple.get? 0, te.triple.get? 1, te.triple.get? 2 with
    | some t0, some t1, some t2 =>
      match tLookup st.gnInfo t0 with
      | none => .error .keyError
      | some ie =>
        match ie.payload with
        | .jobj ntdKVs =>
          match tLookup st.nodeStack t2 with
          | none => .error .keyError
          | some nst =>
            match exportNdata st nst ntdKVs with
            | .error e => .error e
            | .ok ndata =>
              match tLookup st.gnData t1 with
              | none => .error .keyError
              | some de =>
                .ok { pname := te.tname, pid := id_, transaction := [t0, t1, t2],
                      docGname := ie.iname, docGclass := ie.icls, docGuser := ie.iuser,
                      nodeStackDoc := nst, valuesData := de.payload, nodesData := ndata }
        | _ => .error .typeError
    | _, _, _ => .error .indexError

/-- preset_util.export_mat_preset_data_by_preset_id, lines 1437 to 1456:
the material counterpart of the geometry node export. -/
def export_mat_preset_data_by_preset_id (st : Store) (id_ : String) :
    Except Err PresetDoc :=
  match tLookup st.matTrans id_ with
  | none => .error .keyError
  | some te =>
    match te.triple.get? 0, te.triple.get? 1, te.triple.get? 2 with
    | some t0, some t1, some t2 =>
      match tLookup st.matInfo t0 with
      | none => .error .keyError
      | some ie =>
        match ie.payload with
        | .jobj ntdKVs =>
          match tLookup st.nodeStack t2 with
          | none => .error .keyError
          | some nst =>
            match exportNdata st nst ntdKVs with
            | .error e => .error e
            | .ok ndata =>
              match tLookup st.matData t1 with
              | none => .error .keyError
              | some de =>
                .ok { pname := te.tname, pid := id_, transaction := [t0, t1, t2],
                      docGname := ie.iname, docGclass := ie.icls, docGuser := ie.iuser,
                      nodeStackDoc := nst, valuesData := de.payload, nodesData := ndata }
        | _ => .error .typeError
    | _, _, _ => .error .indexError

/-- The ntd payload the importers write into INFO: the first two elements
of every node entry. -/
def importNtd (nodes : List (String × List (List JVal))) : JVal :=
  .jobj (nodes.map (fun kv => (kv.1, .jarr (kv.2.map (fun e => JVal.jarr (e.take 2))))))

/-- One entry of the NODES section of the importers: the payload is read
at index 2, the suggested name at index 3 and the node id at index 4 of
the entry list; a shorter entry raises IndexError. -/
def import_node_entry (st : Store) (ntype : String) (node : List JVal) :
    Except Err Store :=
  match tLookup node_type_abbr_dict ntype with
  | none => .error .keyError
  | some _ =>
    match node.get? 2 with
    | none => .error .indexError
    | some data =>
      match node.get? 4 with
      | none => .error .indexError
      | some nidJ =>
        match nidJ with
        | .jstr nid =>
          if tHasKey st.nodesTbl nid then presetIdxAppend st ntype nid
          else
            match normJson data with
            | none => .error .typeError
            | some pv =>
              let st1 := { st with nodesTbl := st.nodesTbl ++ [(nid, (⟨pv, none, none⟩ : NodeE))] }
              match node.get? 3 with
              | none => .error .indexError
              | some sugJ =>
                let sugO : Except Err (Option String) :=
                  match sugJ with
                  | .jstr s => .ok (some s)
                  | .jnull => .ok none
                  | _ => .error .typeError
                match sugO with
                | .error e => .error e
                | .ok sug =>
                  let named : Except Err (Option String) :=
                    if (get_names NodeE.nodeNm st1.nodesTbl).contains sug then
                      match sug with
                      | some s =>
                        match get_match_series_highest s (get_names NodeE.nodeNm st1.nodesTbl) with
                        | .error e => .error e
                        | .ok s2 => .ok (some s2)
                      | none => .error .attrError
                    else .ok sug
                  match named with
                  | .error e => .error e
                  | .ok nm =>
                    presetIdxAppend
                      { st1 with nodesTbl := tSetEntry st1.nodesTbl nid ⟨pv, nm, some ntype⟩ }
                      ntype nid
        | _ => .error .typeError

def import_nodes_entries (st : Store) (ntype : String) :
    List (List JVal) → Except Err Store
  | [] => .ok st
  | node :: rest =>
    match import_node_entry st ntype node with
    | .error e => .error e
    | .ok st1 => import_nodes_entries st1 ntype rest

def import_nodes_loop (st : Store) :
    List (String × List (List JVal)) → Except Err Store
  | [] => .ok st
  | (ntype, entries) :: rest =>
    match tLookup st.presetIdx ntype with
    | none => .error .keyError
    | some _ =>
      match import_nodes_entries st ntype entries with
      | .error e => .error e
      | .ok st1 => import_nodes_loop st1 rest

/-- The node_ids mapping the importers store into NODE_STACK: element 4
of every entry; shorter entries raise IndexError. -/
def importNodeIds (nodes : List (String × List (List JVal))) :
    Except Err (List (String × List String)) := goKV nodes
where
  goIds : List (List JVal) → Except Err (List String)
    | [] => .ok []
    | e :: rest =>
      match e.get? 4 with
      | none => .error .indexError
      | some (.jstr s) =>
        match goIds rest with
        | .error er => .error er
        | .ok tail => .ok (s :: tail)
      | some _ => .error .typeError
  goKV : List (String × List (List JVal)) → Except Err (List (String × List String))
    | [] => .ok []
    | (k, es) :: rest =>
      match goIds es with
      | .error er => .error er
      | .ok ids =>
        match goKV rest with
        | .error er => .error er
        | .ok tail => .ok ((k, ids) :: tail)

/-- The DATA section of import_gn_preset_data: create the values record
if absent, the suggested display name being the (possibly already
suffixed) imported preset name, series suffixed again on collision. -/
def import_gn_data_step (st2 : Store) (values_id : String) (valuesData : JVal)
    (preset_name : Option String) : Except Err Unit × Store :=
  if tHasKey st2.gnData values_id then (.ok (), st2)
  else
    match normJson valuesData with
    | none => (.error .typeError, st2)
    | some pv =>
      let st3 := { st2 with gnData := st2.gnData ++ [(values_id, (⟨pv, none⟩ : DataE))] }
      let vnamed : Except Err (Option String) :=
        if (get_names DataE.dname st3.gnData).contains preset_name then
          match preset_name with
          | some s =>
            match get_match_series_highest s (get_names DataE.dname st3.gnData) with
            | .error e => .error e
            | .ok s2 => .ok (some s2)
          | none => .error .attrError
        else .ok preset_name
      match vnamed with
      | .error e => (.error e, st3)
      | .ok nm =>
        (.ok (), { st3 with gnData := tSetEntry st3.gnData values_id ⟨pv, nm⟩ })

/-- The DATA section of import_mat_preset_data, the material counterpart
of import_gn_data_step. -/
def import_mat_data_step (st2 : Store) (values_id : String) (valuesData : JVal)
    (preset_name : Option String) : Except Err Unit × Store :=
  if tHasKey st2.matData values_id then (.ok (), st2)
  else
    match normJson valuesData with
    | none => (.error .typeError, st2)
    | some pv =>
      let st3 := { st2 with matData := st2.matData ++ [(values_id, (⟨pv, none⟩ : DataE))] }
      let vnamed : Except Err (Option String) :=
        if (get_names DataE.dname st3.matData).contains preset_name then
          match preset_name with
          | some s =>
            match get_match_series_highest s (get_names DataE.dname st3.matData) with
            | .error e => .error e
            | .ok s2 => .ok (some s2)
          | none => .error .attrError
        else .ok preset_name
      match vnamed with
      | .error e => (.error e, st3)
      | .ok nm =>
        (.ok (), { st3 with matData := tSetEntry st3.matData values_id ⟨pv, nm⟩ })

/-- The NODE_STACK section shared by both importers: store the node id
mapping under the stack id when absent. -/
def import_stack_step (st4 : Store) (ni_id : String)
    (nodes : List (String × List (List JVal))) : Except Err Store :=
  if tHasKey st4.nodeStack ni_id then .ok st4
  else
    match importNodeIds nodes with
    | .error e => .error e
    | .ok node_ids =>
      .ok { st4 with nodeStack := st4.nodeStack ++ [(ni_id, node_ids)] }

/-- preset_util.import_gn_preset_data, lines 1741 to 1823: import of a
geometry node export document.  When the preset id is already a
transaction key the import returns immediately with the stored name and
no table is touched; otherwise the transaction is created first and the
dependent records are created if absent. -/
def import_gn_preset_data (st : Store) (doc : PresetDoc) :
    Except Err (Bool × Option String) × Store :=
  match doc.transaction.get? 0, doc.transaction.get? 1, doc.transaction.get? 2 with
  | some ng_id, some values_id, some ni_id =>
    if tHasKey st.gnTrans doc.pid then
      (.ok (false, (tLookup st.gnTrans doc.pid).bind TransE.tname), st)
    else
      let named : Except Err (Option String) :=
        if (get_names TransE.tname st.gnTrans).contains doc.pname then
          match doc.pname with
          | some s =>
            match get_match_series_highest s (get_names TransE.tname st.gnTrans) with
            | .error e => .error e
            | .ok s2 => .ok (some s2)
          | none => .error .attrError
        else .ok doc.pname
      match named with
      | .error e => (.error e, st)
      | .ok preset_name =>
        let st1 := { st with gnTrans := st.gnTrans ++
          [(doc.pid, (⟨[ng_id, values_id, ni_id], preset_name⟩ : TransE))] }
        let pname := preset_name
        let st2 :=
          if tHasKey st1.gnInfo ng_id then st1
          else { st1 with gnInfo := st1.gnInfo ++
            [(ng_id, (⟨importNtd doc.nodesData, doc.docGname, doc.docGclass, doc.docGuser⟩ : InfoE))] }
        match import_gn_data_step st2 values_id doc.valuesData preset_name with
        | (.error e, st3) => (.error e, st3)
        | (.ok _, st3) =>
          match import_nodes_loop st3 doc.nodesData with
          | .error e => (.error e, st3)
          | .ok st4 =>
            match import_stack_step st4 ni_id doc.nodesData with
            | .error e => (.error e, st4)
            | .ok st5 =>
              match tLookup st5.gnFull ng_id with
              | none =>
                (.ok (true, pname),
                 { st5 with gnFull := st5.gnFull ++ [(ng_id, [doc.pid])],
                            gnValues := st5.gnValues ++ [(ng_id, [values_id])] })
              | some ful =>
                let st6 :=
                  if ful.contains doc.pid then st5
                  else { st5 with gnFull := tSetEntry st5.gnFull ng_id (ful ++ [doc.pid]) }
                match tLookup st6.gnValues ng_id with
                | none => (.error .keyError, st6)
                | some vl =>
                  let st7 :=
                    if vl.contains values_id then st6
                    else { st6 with gnValues := tSetEntry st6.gnValues ng_id (vl ++ [values_id]) }
                  (.ok (true, pname), st7)
  | _, _, _ => (.error .indexError, st)

/-- preset_util.import_mat_preset_data, lines 1632 to 1714: import of a
material export document, the material counterpart of the geometry
node importer, with the same early return on a known preset id. -/
def import_mat_preset_data (st : Store) (doc : PresetDoc) :
    Except Err (Bool × Option String) × Store :=
  match doc.transaction.get? 0, doc.transaction.get? 1, doc.transaction.get? 2 with
  | some mat_id, some values_id, some ni_id =>
    if tHasKey st.matTrans doc.pid then
      (.ok (false, (tLookup st.matTrans doc.pid).bind TransE.tname), st)
    else
      let named : Except Err (Option String) :=
        if (get_names TransE.tname st.matTrans).contains doc.pname then
          match doc.pname with
          | some s =>
            match get_match_series_highest s (get_names TransE.tname st.matTrans) with
            | .error e => .error e
            | .ok s2 => .ok (some s2)
          | none => .error .attrError
        else .ok doc.pname
      match named with
      | .error e => (.error e, st)
      | .ok preset_name =>
        let st1 := { st with matTrans := st.matTrans ++
          [(doc.pid, (⟨[mat_id, values_id, ni_id], preset_name⟩ : TransE))] }
        let pname := preset_name
        let st2 :=
          if tHasKey st1.matInfo mat_id then st1
          else { st1 with matInfo := st1.matInfo ++
            [(mat_id, (⟨importNtd doc.nodesData, doc.docGname, doc.docGclass, doc.docGuser⟩ : InfoE))] }
        match import_mat_data_step st2 values_id doc.valuesData preset_name with
        | (.error e, st3) => (.error e, st3)
        | (.ok _, st3) =>
          match import_nodes_loop st3 doc.nodesData with
          | .error e => (.error e, st3)
          | .ok st4 =>
            match import_stack_step st4 ni_id doc.nodesData with
            | .error e => (.error e, st4)
            | .ok st5 =>
              match tLookup st5.matFull mat_id with
              | none =>
                (.ok (true, pname),
                 { st5 with matFull := st5.matFull ++ [(mat_id, [doc.pid])],
                            matValues := st5.matValues ++ [(mat_id, [values_id])] })
              | some ful =>
                let st6 :=
                  if ful.contains doc.pid then st5
                  else { st5 with matFull := tSetEntry st5.matFull mat_id (ful ++ [doc.pid]) }
                match tLookup st6.matValues mat_id with
                | none => (.error .keyError, st6)
                | some vl =>
                  let st7 :=
                    if vl.contains values_id then st6
                    else { st6 with matValues := tSetEntry st6.matValues mat_id (vl ++ [values_id]) }
                  (.ok (true, pname), st7)
  | _, _, _ => (.error .indexError, st)

/- ---------------------------------------------------------------- -/
/- Structural sequence similarity and key order (hash determinism)  -/
/- ---------------------------------------------------------------- -/

mutual
/-- Values that agree up to the list-versus-tuple distinction at every
level: numbers, strings, booleans and arrays agree exactly, sequences
agree elementwise whether either side is a list or a tuple, and mappings
agree entrywise with equal keys. -/
def seqSimV : JVal → JVal → Bool
  | .jnull, .jnull => true
  | .jnum a, .jnum b => a == b
  | .jstr a, .jstr b => a == b
  | .jbool a, .jbool b => a == b
  | .jnd a, .jnd b => a == b
  | .jnd2 a, .jnd2 b => a == b
  | .jarr xs, .jarr ys => seqSimL xs ys
  | .jarr xs, .jtup ys => seqSimL xs ys
  | .jtup xs, .jarr ys => seqSimL xs ys
  | .jtup xs, .jtup ys => seqSimL xs ys
  | .jobj xs, .jobj ys => seqSimKV xs ys
  | _, _ => false

def seqSimL : List JVal → List JVal → Bool
  | [], [] => true
  | x :: xs, y :: ys => seqSimV x y && seqSimL xs ys
  | _, _ => false

def seqSimKV : List (String × JVal) → List (String × JVal) → Bool
  | [], [] => true
  | (k1, v) :: xs, (k2, w) :: ys => k1 == k2 && seqSimV v w && seqSimKV xs ys
  | _, _ => false
end


/-- Key order on mapping entries, as used by sorted key serialization. -/
def kvLeP (x y : String × JVal) : Prop := pyStrLe x.1 y.1 = true


/- ---------------------------------------------------------------- -/
/- Shared concrete examples                                         -/
/- ---------------------------------------------------------------- -/

/-- A small node graph with a plain node, one special node of type
INPUT_COLOR and a nested group, used by the concrete parts of several
claims. -/
def exGraph : Graph :=
  { gname := "TestMat.001",
    nodes := NT.plain "MATH" "Math" []
      (NT.plain "INPUT_COLOR" "Color" [("value", .jarr [.jnum 1])]
        (NT.group "Grp" [] (NT.plain "MIX" "Mix" [] .nil) [(0, 0)] .nil)),
    links := [(0, 1)] }

def exVals1 : List (String × JVal) := [("Input_2", .jnum 5)]

def exVals2 : List (String × JVal) := [("Input_2", .jnum 7)]

/-- A minimal graph with one special node, used where a stored preset is
needed and the cost of evaluation matters. -/
def exGraphS : Graph :=
  { gname := "G", nodes := NT.plain "INPUT_COLOR" "C" [("value", .jarr [.jnum 1])] .nil,
    links := [] }

def exGid : String := "9dd09166eff91ebf33e02bc9f646fc52bbb73a9912b434ba34a72d0c2c8a96b4"

def exVid1 : String := "837c0bc6ff39df3f35ca1ec80c076ec98eaa09a769d4998f3f92bac216a7fc42"

def exNid : String := "3835fb27566a51a06c1f6359796bf546bdde3e478842bb721e986d5f2bc1b13e"

def exSid : String := "93de95dc561cfd72c7d027868c7918b1cd220defc6087039f65596724cc4b6a6"

def exPid : String := "4709375c142c51573db444f958b1717101cdb2c5986078a719801b61721b788e"

/-- The store after saving exGraphS with exVals1 under the name PresetA
on a fresh store, spelled out; the C1 counterexample proves that the save
produces exactly this store. -/
def exStore1 : Store :=
  { matInfo := [], matData := [], matTrans := [], matFull := [], matValues := [],
    gnInfo := [(exGid, ⟨encodeNtd [("INPUT_COLOR", [[0]])], some "G",
                        some "Geometry_Node", some "USER"⟩)],
    gnData := [(exVid1, ⟨.jobj [("Input_2", .jnum 5)], some "PresetA"⟩)],
    gnTrans := [(exPid, ⟨[exGid, exVid1, exSid], some "PresetA"⟩)],
    gnFull := [(exGid, [exPid])],
    gnValues := [(exGid, [exVid1])],
    nodesTbl := [(exNid, ⟨.jobj [("value", .jarr [.jnum 1])], some "IC_0", some "INPUT_COLOR"⟩)],
    nodeStack := [(exSid, [("INPUT_COLOR", [exNid])])],
    presetIdx := [("RGB", []), ("CURVE_FLOAT", []), ("VALTORGB", []), ("CURVE_VEC", []),
                  ("CURVE_RGB", []), ("INPUT_COLOR", [exNid])],
    phyCloth := [], phySoft := [], phyColl := [], hairPoints := [], hairSizes := [] }

/-- A store whose transaction and physics and hair tables already carry
an entry with display name X, used to witness the error theorems. -/
def exTakenStore : Store :=
  { create_preset_files with
    matTrans := [("t0", ⟨["a", "b", "c"], some "X"⟩)],
    gnTrans := [("t1", ⟨["a", "b", "c"], some "X"⟩)],
    phyCloth := [("p0", ⟨.jnull, some "X"⟩)],
    phyColl := [("p1", ⟨.jnull, some "X"⟩)],
    hairPoints := [("h0", ⟨[[0, 0, 0]], some "X"⟩)] }

/- ---------------------------------------------------------------- -/
/- Table lemmas                                                     -/
/- ---------------------------------------------------------------- -/

theorem tLookup_tSetEntry_self {entry : Type} (t : Table entry) (k : String) (e a : entry)
    (h : tLookup t k = some a) : tLookup (tSetEntry t k e) k = some e := by
  induction t with
  | nil => simp [tLookup] at h
  | cons hd tl ih =>
    by_cases hk : hd.1 = k
    · simp [tLookup, tSetEntry, hk]
    · simp only [tLookup, hk, if_false] at h
      have htl := ih h
      simp only [tSetEntry, List.map] at htl ⊢
      simp [tLookup, hk, htl]

theorem tLookup_tSetEntry_other {entry : Type} (t : Table entry) (k k' : String) (e : entry)
    (hne : k' ≠ k) : tLookup (tSetEntry t k e) k' = tLookup t k' := by
  induction t with
  | nil => simp [tLookup, tSetEntry]
  | cons hd tl ih =>
    have hkk : ¬(k = k') := fun hc => hne hc.symm
    simp only [tSetEntry, List.map] at ih ⊢
    by_cases hk : hd.1 = k
    · have h2 : ¬(hd.1 = k') := by rw [hk]; exact hkk
      simp [tLookup, hk, h2, hkk, ih]
    · by_cases hk2 : hd.1 = k'
      · simp [tLookup, hk, hk2, hne]
      · simp [tLookup, hk, hk2, ih]

theorem tSetEntry_append_fresh {entry : Type} (t : Table entry) (k : String) (a b : entry)
    (h : tLookup t k = none) : tSetEntry (t ++ [(k, a)]) k b = t ++ [(k, b)] := by
  induction t with
  | nil => simp [tSetEntry]
  | cons hd tl ih =>
    simp only [tLookup] at h
    by_cases hk : hd.1 = k
    · simp [hk] at h
    · simp only [hk, if_false] at h
      have htl := ih h
      simp only [tSetEntry, List.map] at htl ⊢
      simp [hk, htl]

theorem nameTaken_append {entry : Type} (getN : entry → Option String) (t : Table entry)
    (k : String) (a : entry) (nm : String) :
    nameTaken getN (t ++ [(k, a)]) nm = (nameTaken getN t nm || decide (getN a = some nm)) := by
  simp [nameTaken, get_names, List.any_append]

/- ---------------------------------------------------------------- -/
/- Claim C2                                                         -/
/- ---------------------------------------------------------------- -/

/-- C2: for every material, geometry node, physics, collision or hair
save, a proposed top level preset name that is already a display name of
the corresponding transaction table makes the save fail with
NameExistsError before any record is created or modified, the returned
store being the input store. -/
theorem claim_C2_top_name_collision (st : Store) (g : Graph) (mv : List JVal)
    (gv pd cd : List (String × JVal)) (pts : List (List Int)) (szs : List Int)
    (ptype N u : String) (t : Table PhyE) :
    (nameTaken TransE.tname st.matTrans N = true →
      material_preset_processing st g mv N u =
        (.error (.nameExists ("[Preset Name] " ++ N ++ " already exists. Please choose another name.")), st)) ∧
    (nameTaken TransE.tname st.gnTrans N = true →
      geometry_node_preset_processing st g gv N u =
        (.error (.nameExists ("[Preset Name] " ++ N ++ " already exists. Please choose another name.")), st)) ∧
    (physics_table st ptype = some t → nameTaken PhyE.phname t N = true →
      physics_preset_processing st ptype pd N =
        (.error (.nameExists ("[Preset Name] " ++ N ++ " already exists. Please choose another name.")), st)) ∧
    (nameTaken PhyE.phname st.phyColl N = true →
      collision_preset_processing st cd N =
        (.error (.nameExists ("[Preset Name] " ++ N ++ " already exists. Please choose another name.")), st)) ∧
    (nameTaken HairE.hname st.hairPoints N = true →
      hair_preset_processing st pts szs N =
        (.error (.nameExists ("[Preset Name] " ++ N ++ " already exists. Please choose another name.")), st)) := by
  refine ⟨?_, ?_, ?_, ?_, ?_⟩
  · intro h; simp [material_preset_processing, h]
  · intro h; simp [geometry_node_preset_processing, h]
  · intro ht h; simp [physics_preset_processing, ht, h]
  · intro h; simp [collision_preset_processing, h]
  · intro h; simp [hair_preset_processing, h]

/-- Witness for C2 at a concrete store whose tables carry the display
name X. -/
theorem claim_C2_top_name_collision_witness :
    material_preset_processing exTakenStore exGraph [] "X" "u" =
      (.error (.nameExists "[Preset Name] X already exists. Please choose another name."), exTakenStore) ∧
    geometry_node_preset_processing exTakenStore exGraph [] "X" "u" =
      (.error (.nameExists "[Preset Name] X already exists. Please choose another name."), exTakenStore) ∧
    physics_preset_processing exTakenStore "CLOTH" [] "X" =
      (.error (.nameExists "[Preset Name] X already exists. Please choose another name."), exTakenStore) ∧
    collision_preset_processing exTakenStore [] "X" =
      (.error (.nameExists "[Preset Name] X already exists. Please choose another name."), exTakenStore) ∧
    hair_preset_processing exTakenStore [] [] "X" =
      (.error (.nameExists "[Preset Name] X already exists. Please choose another name."), exTakenStore) := by
  refine ⟨?_, ?_, ?_, ?_, ?_⟩
  · exact (claim_C2_top_name_collision exTakenStore exGraph [] [] [] [] [] [] "CLOTH" "X" "u" exTakenStore.phyCloth).1 (by decide)
  · exact (claim_C2_top_name_collision exTakenStore exGraph [] [] [] [] [] [] "CLOTH" "X" "u" exTakenStore.phyCloth).2.1 (by decide)
  · exact (claim_C2_top_name_collision exTakenStore exGraph [] [] [] [] [] [] "CLOTH" "X" "u" exTakenStore.phyCloth).2.2.1 rfl (by decide)
  · exact (claim_C2_top_name_collision exTakenStore exGraph [] [] [] [] [] [] "CLOTH" "X" "u" exTakenStore.phyCloth).2.2.2.1 (by decide)
  · exact (claim_C2_top_name_collision exTakenStore exGraph [] [] [] [] [] [] "CLOTH" "X" "u" exTakenStore.phyCloth).2.2.2.2 (by decide)

/- ---------------------------------------------------------------- -/
/- Claim C8                                                         -/
/- ---------------------------------------------------------------- -/

/-- The name setter for transaction entries, standing for the attrs
assignment of change_preset_name. -/
def transSetName (e : TransE) (s : String) : TransE :=
  { e with tname := some s }

/-- C8: renaming a record id inside a table fails with NameExistsError
and leaves the table unchanged when the new name is already a display
name of the table; otherwise, for a present id, the record keeps its
payload slot, its name attribute becomes the new name, the previous name
is returned, and every other entry of the table is untouched. -/
theorem claim_C8_rename_failure_atomicity {entry : Type} (getN : entry → Option String)
    (setN : entry → String → entry) (t : Table entry) (id_ nm : String) :
    (nameTaken getN t nm = true →
      change_preset_name getN setN t id_ nm =
        (.error (.nameExists ("[Preset] " ++ nm ++ " already in use. Please choose another name.")), t)) ∧
    (∀ a, nameTaken getN t nm = false → tLookup t id_ = some a →
      getN (setN a nm) = some nm →
      change_preset_name getN setN t id_ nm = (.ok (getN a), tSetEntry t id_ (setN a nm)) ∧
      (tLookup (tSetEntry t id_ (setN a nm)) id_).bind getN = some nm ∧
      (∀ k, k ≠ id_ → tLookup (tSetEntry t id_ (setN a nm)) k = tLookup t k)) := by
  constructor
  · intro h; simp [change_preset_name, h]
  · intro a hn hl hset
    refine ⟨by simp [change_preset_name, hn, hl], ?_, ?_⟩
    · rw [tLookup_tSetEntry_self t id_ _ a hl]
      simpa using hset
    · intro k hk; exact tLookup_tSetEntry_other t id_ k _ hk

/-- Witness for C8 on a concrete transaction table with names A and B. -/
theorem claim_C8_rename_failure_atomicity_witness :
    change_preset_name TransE.tname transSetName
        [("t0", (⟨[], some "A"⟩ : TransE)), ("t1", (⟨[], some "B"⟩ : TransE))] "t0" "B" =
      (.error (.nameExists "[Preset] B already in use. Please choose another name."),
       [("t0", (⟨[], some "A"⟩ : TransE)), ("t1", (⟨[], some "B"⟩ : TransE))]) ∧
    change_preset_name TransE.tname transSetName
        [("t0", (⟨[], some "A"⟩ : TransE)), ("t1", (⟨[], some "B"⟩ : TransE))] "t0" "C" =
      (.ok (some "A"),
       [("t0", (⟨[], some "C"⟩ : TransE)), ("t1", (⟨[], some "B"⟩ : TransE))]) := by
  constructor
  · exact (claim_C8_rename_failure_atomicity TransE.tname transSetName
      [("t0", ⟨[], some "A"⟩), ("t1", ⟨[], some "B"⟩)] "t0" "B").1 (by decide)
  · exact ((claim_C8_rename_failure_atomicity TransE.tname transSetName
      [("t0", ⟨[], some "A"⟩), ("t1", ⟨[], some "B"⟩)] "t0" "C").2
      ⟨[], some "A"⟩ (by decide) rfl rfl).1

/- ---------------------------------------------------------------- -/
/- Claim C10                                                        -/
/- ---------------------------------------------------------------- -/

/-- C10: every save operator rejects a proposed preset name that is blank
(no word character), contains whitespace, or equals NONE case
insensitively, cancelling before the archive wrapper runs, so the
archive and its store are unmodified. -/
theorem claim_C10_save_name_validation (z : Zip) (g : Graph) (mv : List JVal)
    (nodePath : List Nat) (N u : String)
    (h : is_string_blank N = true ∨ string_has_space N = true ∨ pyUpper N = "NONE") :
    save_mat_execute z g mv N u = (.cancelled, z) ∧
    save_node_execute z g nodePath N = (.cancelled, z) := by
  constructor <;>
  · simp only [save_mat_execute, save_node_execute, save_operator_body]
    rcases h with h | h | h <;> simp [h]

/-- Witness for C10 at a name containing a space. -/
theorem claim_C10_save_name_validation_witness :
    save_mat_execute { entry := some create_preset_files, temp := none } exGraph [] "bad name" "u" =
      (.cancelled, { entry := some create_preset_files, temp := none }) ∧
    save_node_execute { entry := some create_preset_files, temp := none } exGraph [1] "bad name" =
      (.cancelled, { entry := some create_preset_files, temp := none }) :=
  claim_C10_save_name_validation { entry := some create_preset_files, temp := none }
    exGraph [] [1] "bad name" "u" (Or.inr (Or.inl (by decide)))

/- ---------------------------------------------------------------- -/
/- Claim C7                                                         -/
/- ---------------------------------------------------------------- -/

/-- Counterexample for C7: a mutation that raises makes modify_in_zip
return the ordinary value None, with the temp file deleted and the
archive untouched; the exception does not propagate to the caller. -/
theorem claim_C7_counterexample :
    modify_in_zip { entry := some create_preset_files, temp := none }
        (fun st => ((.error .typeError : Except Err Unit), st)) =
      (.ok none, { entry := some create_preset_files, temp := none }) ∧
    (modify_in_zip { entry := some create_preset_files, temp := none }
        (fun st => ((.error .typeError : Except Err Unit), st))).1 ≠
      (.error .typeError : Except Err (Option Unit)) := by
  refine ⟨rfl, ?_⟩
  intro hcontra
  exact Except.noConfusion hcontra

/-- C7 amended: on an exception during extraction or during the mutation
function the temp file is deleted and the outer archive is untouched, but
the wrapper swallows the exception and returns None instead of
propagating it. -/
theorem claim_C7_wrapper_cleanup {β : Type} (z : Zip) (f : Store → Except Err β × Store) :
    (z.entry = none → modify_in_zip z f = (.ok none, { entry := z.entry, temp := none })) ∧
    (∀ st e st1, z.entry = some st → f st = (.error e, st1) →
      modify_in_zip z f = (.ok none, { entry := z.entry, temp := none })) := by
  constructor
  · intro h; simp [modify_in_zip, h]
  · intro st e st1 hz hf; simp [modify_in_zip, hz, hf]

/-- Witness for C7 at both failure stages. -/
theorem claim_C7_wrapper_cleanup_witness :
    modify_in_zip { entry := none, temp := some create_preset_files }
        (fun st => ((.ok () : Except Err Unit), st)) =
      (.ok none, { entry := none, temp := none }) ∧
    modify_in_zip { entry := some create_preset_files, temp := none }
        (fun st => ((.error .keyError : Except Err Unit), st)) =
      (.ok none, { entry := some create_preset_files, temp := none }) :=
  ⟨(claim_C7_wrapper_cleanup { entry := none, temp := some create_preset_files }
      (fun st => ((.ok () : Except Err Unit), st))).1 rfl,
   (claim_C7_wrapper_cleanup { entry := some create_preset_files, temp := none }
      (fun st => ((.error .keyError : Except Err Unit), st))).2
      create_preset_files .keyError create_preset_files rfl rfl⟩


/- ---------------------------------------------------------------- -/
/- Claim C1                                                         -/
/- ---------------------------------------------------------------- -/

/-- Counterexample for C1: saving the unchanged graph state a second time
under the same proposed name PresetA does not return created false with
the stored name; it raises NameExistsError and leaves the store as it
was. -/
theorem claim_C1_counterexample :
    geometry_node_preset_processing create_preset_files exGraphS exVals1 "PresetA" "USER" =
      (.ok (true, some "PresetA"), exStore1) ∧
    geometry_node_preset_processing exStore1 exGraphS exVals1 "PresetA" "USER" =
      (.error (.nameExists "[Preset Name] PresetA already exists. Please choose another name."),
       exStore1) :=
  ⟨rfl, rfl⟩

/-- C1 amended: re-saving a state whose proposed name is already a stored
display name fails with NameExistsError and changes nothing, for both
asset classes; the created false no-op that surfaces the existing display
name is reached only under a proposed name that is still free, as the
concrete re-save of the unchanged state under the fresh name PresetB
shows. -/
theorem claim_C1_idempotent_save (st : Store) (g : Graph) (mv : List JVal)
    (gv : List (String × JVal)) (N u : String) :
    (nameTaken TransE.tname st.matTrans N = true →
      material_preset_processing st g mv N u =
        (.error (.nameExists ("[Preset Name] " ++ N ++ " already exists. Please choose another name.")), st)) ∧
    (nameTaken TransE.tname st.gnTrans N = true →
      geometry_node_preset_processing st g gv N u =
        (.error (.nameExists ("[Preset Name] " ++ N ++ " already exists. Please choose another name.")), st)) ∧
    geometry_node_preset_processing exStore1 exGraphS exVals1 "PresetB" "USER" =
      (.ok (false, some "PresetA"), exStore1) := by
  refine ⟨?_, ?_, rfl⟩
  · intro h; simp [material_preset_processing, h]
  · intro h; simp [geometry_node_preset_processing, h]

/-- Witness for C1 amended at the concrete stores. -/
theorem claim_C1_idempotent_save_witness :
    material_preset_processing exTakenStore exGraph [] "X" "u" =
      (.error (.nameExists "[Preset Name] X already exists. Please choose another name."),
       exTakenStore) ∧
    geometry_node_preset_processing exStore1 exGraphS exVals1 "PresetA" "USER" =
      (.error (.nameExists "[Preset Name] PresetA already exists. Please choose another name."),
       exStore1) :=
  ⟨(claim_C1_idempotent_save exTakenStore exGraph [] [] "X" "u").1 (by decide),
   (claim_C1_idempotent_save exStore1 exGraph [] exVals1 "PresetA" "USER").2.1 (by decide)⟩

/- ---------------------------------------------------------------- -/
/- Claim C9                                                         -/
/- ---------------------------------------------------------------- -/

/-- C9: when a fresh inner record is created and its suggested display
name collides with an existing display name of the table, the stored
name is the series suffix successor computed by
get_match_series_highest, which is the base name followed by the next
series number zero filled to width three; concretely, two values records
suggested as Foo are stored as Foo and Foo.001. -/
theorem claim_C9_inner_name_autosuffix :
    (∀ (st : Store) (vid : String) (vals : List JVal) (N : String) (pv : JVal) (nm : String),
      tLookup st.matData vid = none →
      normJson (.jarr vals) = some pv →
      nameTaken DataE.dname st.matData N = true →
      get_match_series_highest N
        (get_names DataE.dname (st.matData ++ [(vid, ⟨pv, none⟩)])) = .ok nm →
      mat_data_step st vid vals N =
        (.ok (), { st with matData := st.matData ++ [(vid, ⟨pv, some nm⟩)] })) ∧
    (∀ (N : String) (names : List (Option String)) (m : Int),
      get_max_series_num N names = .ok m →
      get_match_series_highest N names =
        .ok ((pySplitDot N).headD "" ++ "." ++ zfill 3 (toString (m + 1)))) ∧
    ((mat_data_step (mat_data_step create_preset_files "vid1" [.jnum 1] "Foo").2
        "vid2" [.jnum 2] "Foo").2.matData.map (fun kv => kv.2.dname) =
      [some "Foo", some "Foo.001"]) ∧
    get_match_series_highest "Foo" [some "Foo"] = .ok "Foo.001" := by
  refine ⟨?_, ?_, rfl, rfl⟩
  · intro st vid vals N pv nm h1 h2 h3 h4
    have hhk : tHasKey st.matData vid = false := by
      simp [tHasKey, h1]
    simp only [mat_data_step, hhk, Bool.false_eq_true, if_false, h2]
    have htk : nameTaken DataE.dname (st.matData ++ [(vid, (⟨pv, none⟩ : DataE))]) N = true := by
      rw [nameTaken_append]
      simp [h3]
    simp only [htk, if_true, h4]
    rw [tSetEntry_append_fresh _ _ _ _ h1]
  · intro N names m h
    simp [get_match_series_highest, h]

/-- Witness for C9: the general branch applied at a one entry table whose
display name Foo collides with the suggestion. -/
theorem claim_C9_inner_name_autosuffix_witness :
    mat_data_step { create_preset_files with matData := [("v0", ⟨.jnull, some "Foo"⟩)] }
        "v1" [.jnum 3] "Foo" =
      (.ok (), { create_preset_files with matData :=
        [("v0", ⟨.jnull, some "Foo"⟩), ("v1", ⟨.jarr [.jnum 3], some "Foo.001"⟩)] }) ∧
    get_match_series_highest "Foo" [some "Foo", some "Bar"] = .ok "Foo.001" := by
  constructor
  · exact claim_C9_inner_name_autosuffix.1
      { create_preset_files with matData := [("v0", ⟨.jnull, some "Foo"⟩)] }
      "v1" [.jnum 3] "Foo" (.jarr [.jnum 3]) "Foo.001" rfl rfl (by decide) (by decide)
  · exact claim_C9_inner_name_autosuffix.2.1 "Foo" [some "Foo", some "Bar"] 0 (by decide)

/- ---------------------------------------------------------------- -/
/- Claim C6                                                         -/
/- ---------------------------------------------------------------- -/

theorem tHasKey_append_self {entry : Type} (t : Table entry) (k : String) (a : entry) :
    tHasKey (t ++ [(k, a)]) k = true := by
  induction t with
  | nil => simp [tHasKey, tLookup]
  | cons hd tl ih =>
    by_cases hk : hd.1 = k
    · simp [tHasKey, tLookup, hk]
    · simp only [tHasKey, tLookup, hk] at ih ⊢
      simpa [hk] using ih

theorem presetIdxAppend_trans (st : Store) (ntype nid : String) (st' : Store)
    (h : presetIdxAppend st ntype nid = .ok st') :
    st'.gnTrans = st.gnTrans ∧ st'.matTrans = st.matTrans := by
  unfold presetIdxAppend at h
  split at h
  · simp at h
  · split at h <;> cases h <;> simp

theorem import_node_entry_trans (st : Store) (ntype : String) (node : List JVal) (st' : Store)
    (h : import_node_entry st ntype node = .ok st') :
    st'.gnTrans = st.gnTrans ∧ st'.matTrans = st.matTrans := by
  unfold import_node_entry at h
  iterate 16
    all_goals try first
      | (have hp := presetIdxAppend_trans _ _ _ _ h
         simpa using hp)
      | (split at h)
      | (simp at h)

theorem import_nodes_entries_trans (ntype : String) :
    ∀ (es : List (List JVal)) (st st' : Store),
      import_nodes_entries st ntype es = .ok st' →
      st'.gnTrans = st.gnTrans ∧ st'.matTrans = st.matTrans := by
  intro es
  induction es with
  | nil => intro st st' h; cases h; exact ⟨rfl, rfl⟩
  | cons hd tl ih =>
    intro st st' h
    unfold import_nodes_entries at h
    split at h
    · simp at h
    · rename_i st1 heq
      have h1 := import_node_entry_trans _ _ _ _ heq
      have h2 := ih _ _ h
      exact ⟨h2.1.trans h1.1, h2.2.trans h1.2⟩

theorem import_nodes_loop_trans :
    ∀ (l : List (String × List (List JVal))) (st st' : Store),
      import_nodes_loop st l = .ok st' →
      st'.gnTrans = st.gnTrans ∧ st'.matTrans = st.matTrans := by
  intro l
  induction l with
  | nil => intro st st' h; cases h; exact ⟨rfl, rfl⟩
  | cons hd tl ih =>
    intro st st' h
    unfold import_nodes_loop at h
    split at h
    · simp at h
    · split at h
      · simp at h
      · rename_i st1 heq
        have h1 := import_nodes_entries_trans _ _ _ _ heq
        have h2 := ih _ _ h
        exact ⟨h2.1.trans h1.1, h2.2.trans h1.2⟩


theorem import_gn_data_step_trans (st2 : Store) (v : String) (d : JVal)
    (p : Option String) (u : Unit) (st3 : Store)
    (h : import_gn_data_step st2 v d p = (.ok u, st3)) :
    st3.gnTrans = st2.gnTrans ∧ st3.matTrans = st2.matTrans := by
  unfold import_gn_data_step at h
  iterate 8
    all_goals try first
      | (cases h; exact ⟨rfl, rfl⟩)
      | (split at h)
      | (simp at h)

theorem import_mat_data_step_trans (st2 : Store) (v : String) (d : JVal)
    (p : Option String) (u : Unit) (st3 : Store)
    (h : import_mat_data_step st2 v d p = (.ok u, st3)) :
    st3.gnTrans = st2.gnTrans ∧ st3.matTrans = st2.matTrans := by
  unfold import_mat_data_step at h
  iterate 8
    all_goals try first
      | (cases h; exact ⟨rfl, rfl⟩)
      | (split at h)
      | (simp at h)

theorem import_stack_step_trans (st4 : Store) (ni_id : String)
    (nodes : List (String × List (List JVal))) (st5 : Store)
    (h : import_stack_step st4 ni_id nodes = .ok st5) :
    st5.gnTrans = st4.gnTrans ∧ st5.matTrans = st4.matTrans := by
  unfold import_stack_step at h
  iterate 4
    all_goals try first
      | (cases h; exact ⟨rfl, rfl⟩)
      | (split at h)
      | (simp at h)

theorem import_gn_ok_has_pid (st : Store) (doc : PresetDoc) (r : Bool × Option String)
    (st1 : Store) (h : import_gn_preset_data st doc = (.ok r, st1)) :
    tHasKey st1.gnTrans doc.pid = true := by
  unfold import_gn_preset_data at h
  split at h
  · rename_i t0 t1 t2 hg0 hg1 hg2
    by_cases hk : tHasKey st.gnTrans doc.pid = true
    · simp only [hk, if_true] at h
      cases h
      exact hk
    · simp only [eq_false_of_ne_true hk, Bool.false_eq_true, if_false] at h
      split at h
      · simp at h
      · rename_i pn hnamed
        split at h
        · simp at h
        · rename_i u st3 hdata
          have hd := import_gn_data_step_trans _ _ _ _ _ _ hdata
          split at h
          · simp at h
          · rename_i st4 hloop
            have hl := import_nodes_loop_trans _ _ _ hloop
            split at h
            · simp at h
            · rename_i st5 hstack
              have hs := import_stack_step_trans _ _ _ _ hstack
              have hchain : st5.gnTrans =
                  st.gnTrans ++ [(doc.pid, (⟨[t0, t1, t2], pn⟩ : TransE))] := by
                rw [hs.1, hl.1, hd.1]
                split
                · rfl
                · rfl
              split at h
              · cases h
                simpa [hchain] using tHasKey_append_self st.gnTrans doc.pid _
              · rename_i ful hful
                split at h
                · simp at h
                · rename_i vl hvl
                  cases h
                  simp only [apply_ite Store.gnTrans]
                  simp only [ite_self]
                  simpa [apply_ite Store.gnTrans, ite_self, hchain] using
                    tHasKey_append_self st.gnTrans doc.pid _
  · simp at h

theorem import_mat_ok_has_pid (st : Store) (doc : PresetDoc) (r : Bool × Option String)
    (st1 : Store) (h : import_mat_preset_data st doc = (.ok r, st1)) :
    tHasKey st1.matTrans doc.pid = true := by
  unfold import_mat_preset_data at h
  split at h
  · rename_i t0 t1 t2 hg0 hg1 hg2
    by_cases hk : tHasKey st.matTrans doc.pid = true
    · simp only [hk, if_true] at h
      cases h
      exact hk
    · simp only [eq_false_of_ne_true hk, Bool.false_eq_true, if_false] at h
      split at h
      · simp at h
      · rename_i pn hnamed
        split at h
        · simp at h
        · rename_i u st3 hdata
          have hd := import_mat_data_step_trans _ _ _ _ _ _ hdata
          split at h
          · simp at h
          · rename_i st4 hloop
            have hl := import_nodes_loop_trans _ _ _ hloop
            split at h
            · simp at h
            · rename_i st5 hstack
              have hs := import_stack_step_trans _ _ _ _ hstack
              have hchain : st5.matTrans =
                  st.matTrans ++ [(doc.pid, (⟨[t0, t1, t2], pn⟩ : TransE))] := by
                rw [hs.2, hl.2, hd.2]
                split
                · rfl
                · rfl
              split at h
              · cases h
                simpa [hchain] using tHasKey_append_self st.matTrans doc.pid _
              · rename_i ful hful
                split at h
                · simp at h
                · rename_i vl hvl
                  cases h
                  simpa [apply_ite Store.matTrans, ite_self, hchain] using
                    tHasKey_append_self st.matTrans doc.pid _
  · simp at h

theorem import_gn_pid_present_noop (st : Store) (doc : PresetDoc) (t0 t1 t2 : String)
    (hg0 : doc.transaction.get? 0 = some t0) (hg1 : doc.transaction.get? 1 = some t1)
    (hg2 : doc.transaction.get? 2 = some t2) (hk : tHasKey st.gnTrans doc.pid = true) :
    import_gn_preset_data st doc =
      (.ok (false, (tLookup st.gnTrans doc.pid).bind TransE.tname), st) := by
  simp only [import_gn_preset_data]
  rw [hg0, hg1, hg2]
  simp [hk]

theorem import_mat_pid_present_noop (st : Store) (doc : PresetDoc) (t0 t1 t2 : String)
    (hg0 : doc.transaction.get? 0 = some t0) (hg1 : doc.transaction.get? 1 = some t1)
    (hg2 : doc.transaction.get? 2 = some t2) (hk : tHasKey st.matTrans doc.pid = true) :
    import_mat_preset_data st doc =
      (.ok (false, (tLookup st.matTrans doc.pid).bind TransE.tname), st) := by
  simp only [import_mat_preset_data]
  rw [hg0, hg1, hg2]
  simp [hk]

/-- C6: when the transaction table already holds the preset id of the
document, import returns created false together with the stored display
name and leaves every table unchanged; consequently a second import of
a document whose first import returned normally is such a no-op, so
two imports leave the store exactly as after the first. -/
theorem claim_C6_import_idempotence :
    (∀ (st : Store) (doc : PresetDoc) (t0 t1 t2 : String),
      doc.transaction.get? 0 = some t0 → doc.transaction.get? 1 = some t1 →
      doc.transaction.get? 2 = some t2 → tHasKey st.gnTrans doc.pid = true →
      import_gn_preset_data st doc =
        (.ok (false, (tLookup st.gnTrans doc.pid).bind TransE.tname), st)) ∧
    (∀ (st : Store) (doc : PresetDoc) (t0 t1 t2 : String),
      doc.transaction.get? 0 = some t0 → doc.transaction.get? 1 = some t1 →
      doc.transaction.get? 2 = some t2 → tHasKey st.matTrans doc.pid = true →
      import_mat_preset_data st doc =
        (.ok (false, (tLookup st.matTrans doc.pid).bind TransE.tname), st)) ∧
    (∀ (st : Store) (doc : PresetDoc) (r : Bool × Option String) (st1 : Store),
      import_gn_preset_data st doc = (.ok r, st1) →
      import_gn_preset_data st1 doc =
        (.ok (false, (tLookup st1.gnTrans doc.pid).bind TransE.tname), st1)) ∧
    (∀ (st : Store) (doc : PresetDoc) (r : Bool × Option String) (st1 : Store),
      import_mat_preset_data st doc = (.ok r, st1) →
      import_mat_preset_data st1 doc =
        (.ok (false, (tLookup st1.matTrans doc.pid).bind TransE.tname), st1)) := by
  refine ⟨import_gn_pid_present_noop, import_mat_pid_present_noop, ?_, ?_⟩
  · intro st doc r st1 h
    have hk1 := import_gn_ok_has_pid _ _ _ _ h
    unfold import_gn_preset_data at h
    split at h
    · rename_i t0 t1 t2 hg0 hg1 hg2
      exact import_gn_pid_present_noop st1 doc t0 t1 t2 hg0 hg1 hg2 hk1
    · simp at h
  · intro st doc r st1 h
    have hk1 := import_mat_ok_has_pid _ _ _ _ h
    unfold import_mat_preset_data at h
    split at h
    · rename_i t0 t1 t2 hg0 hg1 hg2
      exact import_mat_pid_present_noop st1 doc t0 t1 t2 hg0 hg1 hg2 hk1
    · simp at h

/-- A trivial export document used by the C6 witness. -/
def exDoc : PresetDoc :=
  { pname := some "N", pid := "p", transaction := ["a", "b", "c"],
    docGname := some "G", docGclass := some "Geometry_Node", docGuser := some "USER",
    nodeStackDoc := [], valuesData := .jnull, nodesData := [] }

/-- Witness for C6: a concrete first import into a fresh store followed
by a second import of the same document, and a direct import into a
store already holding the preset id. -/
theorem claim_C6_import_idempotence_witness :
    import_gn_preset_data (import_gn_preset_data create_preset_files exDoc).2 exDoc =
      (.ok (false, some "N"), (import_gn_preset_data create_preset_files exDoc).2) ∧
    import_mat_preset_data (import_mat_preset_data create_preset_files exDoc).2 exDoc =
      (.ok (false, some "N"), (import_mat_preset_data create_preset_files exDoc).2) ∧
    import_gn_preset_data
        { create_preset_files with gnTrans := [("p", ⟨["a", "b", "c"], some "N"⟩)] } exDoc =
      (.ok (false, some "N"),
       { create_preset_files with gnTrans := [("p", ⟨["a", "b", "c"], some "N"⟩)] }) := by
  refine ⟨?_, ?_, ?_⟩
  · exact claim_C6_import_idempotence.2.2.1 create_preset_files exDoc (true, some "N")
      (import_gn_preset_data create_preset_files exDoc).2 rfl
  · exact claim_C6_import_idempotence.2.2.2 create_preset_files exDoc (true, some "N")
      (import_mat_preset_data create_preset_files exDoc).2 rfl
  · exact claim_C6_import_idempotence.1
      { create_preset_files with gnTrans := [("p", ⟨["a", "b", "c"], some "N"⟩)] }
      exDoc "a" "b" "c" rfl rfl rfl (by decide)

/- ---------------------------------------------------------------- -/
/- Claim C5                                                         -/
/- ---------------------------------------------------------------- -/

/-- The export document the store exStore1 produces for its preset: note
the node entries have four elements, address, payload, display name and
node id. -/
def exDocBug : PresetDoc :=
  { pname := some "PresetA", pid := exPid, transaction := [exGid, exVid1, exSid],
    docGname := some "G", docGclass := some "Geometry_Node", docGuser := some "USER",
    nodeStackDoc := [("INPUT_COLOR", [exNid])],
    valuesData := .jobj [("Input_2", .jnum 5)],
    nodesData := [("INPUT_COLOR",
      [[.jarr [.jnum 0], .jobj [("value", .jarr [.jnum 1])], .jstr "IC_0", .jstr exNid]])] }

/-- C5 evaluation: exporting the stored geometry node preset wraps every
referenced node record in a four element entry, and importing that very
document into a fresh store raises IndexError, because the importer reads
the payload at index 2, the display name at index 3 and the node id at
index 4 of each entry; the round trip therefore crashes instead of
reconstructing the records whenever the preset references at least one
special node. -/
theorem claim_C5_round_trip_import_crash :
    export_gn_preset_data_by_preset_id exStore1 exPid = .ok exDocBug ∧
    exDocBug.nodesData.map (fun kv => kv.2.map List.length) = [[4]] ∧
    (import_gn_preset_data create_preset_files exDocBug).1 = .error .indexError :=
  ⟨rfl, rfl, rfl⟩

/- ---------------------------------------------------------------- -/
/- Claim C4                                                         -/
/- ---------------------------------------------------------------- -/

/-- Erasure of everything the structural scan ignores: node names and the
per node codec data; only the type strings, the nesting structure and the
links remain. -/
def stripNT : NT → NT
  | .nil => .nil
  | .plain t _ _ rest => .plain t "" [] (stripNT rest)
  | .group _ _ sub sl rest => .group "" [] (stripNT sub) sl (stripNT rest)

/-- The structural skeleton of a graph: node types, nesting and links. -/
def stripGraph (g : Graph) : Graph :=
  { gname := "", nodes := stripNT g.nodes, links := g.links }

theorem node_scan_strip (nt : NT) : ∀ (pfx : List Nat) (i : Nat),
    node_scan pfx i (stripNT nt) = node_scan pfx i nt := by
  induction nt with
  | nil => intro pfx i; rfl
  | plain t nm d rest ih => intro pfx i; simp [stripNT, node_scan, ih]
  | group nm d sub sl rest ihs ihr => intro pfx i; simp [stripNT, node_scan, ihs, ihr]

theorem node_link_scan_strip (nt : NT) : ∀ (pfx : List Nat) (i : Nat),
    node_link_scan pfx i (stripNT nt) = node_link_scan pfx i nt := by
  induction nt with
  | nil => intro pfx i; rfl
  | plain t nm d rest ih => intro pfx i; simp [stripNT, node_link_scan, ih]
  | group nm d sub sl rest ihs ihr => intro pfx i; simp [stripNT, node_link_scan, ihs, ihr]

theorem get_all_nodes_strip (g : Graph) :
    get_all_nodes (stripGraph g) = get_all_nodes g := by
  simp [get_all_nodes, stripGraph, node_scan_strip, node_link_scan_strip]

/-- A parameter variation of exGraphS: same single special node type and
no links, but a different node name and different codec data. -/
def exGraphS2 : Graph :=
  { gname := "G2", nodes := NT.plain "INPUT_COLOR" "C2" [("value", .jarr [.jnum 2])] .nil,
    links := [] }

/-- C4: graphs with the same node type sequence and the same link
topology, including nested groups, receive the same structural identity
hash regardless of their parameter values, so saving two such states
shares a single GraphIdentity INFO entry while distinct flat values
snapshots create two distinct ValuesRecord DATA entries, as the second
save on the stored example shows. -/
theorem claim_C4_structural_equivalence :
    (∀ g1 g2 : Graph, stripGraph g1 = stripGraph g2 →
      hash_dict (get_all_nodes g1) = hash_dict (get_all_nodes g2)) ∧
    ((geometry_node_preset_processing exStore1 exGraphS2 exVals2 "PresetB" "USER").2.gnInfo.length = 1 ∧
     (geometry_node_preset_processing exStore1 exGraphS2 exVals2 "PresetB" "USER").2.gnData.length = 2 ∧
     ((geometry_node_preset_processing exStore1 exGraphS2 exVals2 "PresetB" "USER").2.gnData.map
        Prod.fst).Nodup) := by
  have hgen : ∀ g1 g2 : Graph, stripGraph g1 = stripGraph g2 →
      hash_dict (get_all_nodes g1) = hash_dict (get_all_nodes g2) := by
    intro g1 g2 h
    rw [← get_all_nodes_strip g1, ← get_all_nodes_strip g2, h]
  exact ⟨hgen, by decide⟩

/-- Witness for C4: the parameter variation of the example graph has the
same structural hash. -/
theorem claim_C4_structural_equivalence_witness :
    hash_dict (get_all_nodes exGraphS2) = hash_dict (get_all_nodes exGraphS) :=
  claim_C4_structural_equivalence.1 exGraphS2 exGraphS rfl

/- ---------------------------------------------------------------- -/
/- C3: hash determinism and container-insensitivity                 -/
/- ---------------------------------------------------------------- -/
mutual
theorem seqSimV_refl : ∀ v, seqSimV v v = true
  | .jnull => rfl
  | .jnum a => by simp [seqSimV]
  | .jstr a => by simp [seqSimV]
  | .jbool a => by simp [seqSimV]
  | .jnd a => by simp [seqSimV]
  | .jnd2 a => by simp [seqSimV]
  | .jarr xs => by simp [seqSimV, seqSimL_refl xs]
  | .jtup xs => by simp [seqSimV, seqSimL_refl xs]
  | .jobj xs => by simp [seqSimV, seqSimKV_refl xs]

theorem seqSimL_refl : ∀ xs, seqSimL xs xs = true
  | [] => rfl
  | x :: xs => by simp [seqSimL, seqSimV_refl x, seqSimL_refl xs]

theorem seqSimKV_refl : ∀ xs, seqSimKV xs xs = true
  | [] => rfl
  | (k, v) :: xs => by simp [seqSimKV, seqSimV_refl v, seqSimKV_refl xs]
end

mutual
theorem seqSimV_dumps0 : ∀ v w, seqSimV v w = true → dumps0 v = dumps0 w
  | .jnull, .jnull, _ => rfl
  | .jnum a, .jnum b, h => by
    simp only [seqSimV, beq_iff_eq] at h
    rw [h]
  | .jstr a, .jstr b, h => by
    simp only [seqSimV, beq_iff_eq] at h
    rw [h]
  | .jbool a, .jbool b, h => by
    simp only [seqSimV, beq_iff_eq] at h
    rw [h]
  | .jnd a, .jnd b, h => rfl
  | .jnd2 a, .jnd2 b, h => rfl
  | .jarr xs, .jarr ys, h => by
    simp only [seqSimV] at h
    simp [dumps0, seqSimL_dumpsList xs ys h]
  | .jarr xs, .jtup ys, h => by
    simp only [seqSimV] at h
    simp [dumps0, seqSimL_dumpsList xs ys h]
  | .jtup xs, .jarr ys, h => by
    simp only [seqSimV] at h
    simp [dumps0, seqSimL_dumpsList xs ys h]
  | .jtup xs, .jtup ys, h => by
    simp only [seqSimV] at h
    simp [dumps0, seqSimL_dumpsList xs ys h]
  | .jobj xs, .jobj ys, h => by
    simp only [seqSimV] at h
    simp [dumps0, seqSimKV_dumpsKV xs ys h]
  | .jnull, .jnum _, h => by simp [seqSimV] at h
  | .jnull, .jstr _, h => by simp [seqSimV] at h

theorem seqSimL_dumpsList : ∀ xs ys, seqSimL xs ys = true → dumpsList xs = dumpsList ys
  | [], [], _ => rfl
  | x :: xs, y :: ys, h => by
    simp only [seqSimL, Bool.and_eq_true] at h
    simp [dumpsList, seqSimV_dumps0 x y h.1, seqSimL_dumpsList xs ys h.2]
  | [], _ :: _, h => by simp [seqSimL] at h
  | _ :: _, [], h => by simp [seqSimL] at h

theorem seqSimKV_dumpsKV : ∀ xs ys, seqSimKV xs ys = true → dumpsKV xs = dumpsKV ys
  | [], [], _ => rfl
  | (k1, v) :: xs, (k2, w) :: ys, h => by
    simp only [seqSimKV, Bool.and_eq_true, beq_iff_eq] at h
    simp [dumpsKV, h.1.1, seqSimV_dumps0 v w h.1.2, seqSimKV_dumpsKV xs ys h.2]
  | [], _ :: _, h => by simp [seqSimKV] at h
  | _ :: _, [], h => by simp [seqSimKV] at h
end


/- String order lemmas -/

theorem charToNatInj {a b : Char} (h : a.toNat = b.toNat) : a = b := by
  have hsm : StrictMono Char.toNat := fun x y hxy => hxy
  exact hsm.injective h

theorem strLtB_irrefl : ∀ a, strLtB a a = false
  | [] => rfl
  | c :: cs => by simp [strLtB, strLtB_irrefl cs]

theorem strLtB_asymm : ∀ a b, strLtB a b = true → strLtB b a = false
  | [], [], h => by simp [strLtB] at h
  | [], _ :: _, _ => by simp [strLtB]
  | _ :: _, [], h => by simp [strLtB] at h
  | a :: as, b :: bs, h => by
    simp only [strLtB] at h ⊢
    by_cases h1 : a.toNat < b.toNat
    · have h2 : ¬(b.toNat < a.toNat) := lt_asymm h1
      simp [h1, h2]
    · by_cases h2 : b.toNat < a.toNat
      · simp [h1, h2] at h
      · simp only [h1, h2, if_false] at h ⊢
        exact strLtB_asymm as bs h

theorem strLtB_eq_of_not : ∀ a b, strLtB a b = false → strLtB b a = false → a = b
  | [], [], _, _ => rfl
  | [], _ :: _, h, _ => by simp [strLtB] at h
  | _ :: _, [], _, h2 => by simp [strLtB] at h2
  | a :: as, b :: bs, h1, h2 => by
    simp only [strLtB] at h1 h2
    by_cases hab : a.toNat < b.toNat
    · simp [hab] at h1
    · by_cases hba : b.toNat < a.toNat
      · simp [hba, hab] at h2
      · have hv : a = b := charToNatInj (le_antisymm (not_lt.mp hba) (not_lt.mp hab))
        simp only [hab, hba, if_false] at h1 h2
        rw [hv, strLtB_eq_of_not as bs h1 h2]

theorem strLtB_trans : ∀ a b c, strLtB a b = true → strLtB b c = true → strLtB a c = true
  | [], _, _ :: _, _, _ => by simp [strLtB]
  | [], [], _, h1, _ => by simp [strLtB] at h1
  | [], _ :: _, [], _, h2 => by simp [strLtB] at h2
  | _ :: _, [], _, h1, _ => by simp [strLtB] at h1
  | _ :: _, _ :: _, [], _, h2 => by simp [strLtB] at h2
  | a :: as, b :: bs, c :: cs, h1, h2 => by
    simp only [strLtB] at h1 h2 ⊢
    by_cases hab : a.toNat < b.toNat
    · by_cases hbc : b.toNat < c.toNat
      · simp [lt_trans hab hbc]
      · by_cases hcb : c.toNat < b.toNat
        · simp [hcb, hbc] at h2
        · have : b = c := charToNatInj (le_antisymm (not_lt.mp hcb) (not_lt.mp hbc))
          subst this
          simp [hab]
    · by_cases hba : b.toNat < a.toNat
      · simp [hab, hba] at h1
      · have : a = b := charToNatInj (le_antisymm (not_lt.mp hba) (not_lt.mp hab))
        subst this
        simp only [hab, lt_irrefl, if_false] at h1 h2 ⊢
        by_cases hac : a.toNat < c.toNat
        · simp [hac]
        · by_cases hca : c.toNat < a.toNat
          · simp [hca, hac] at h2
          · simp only [hac, hca, if_false] at h2 ⊢
            exact strLtB_trans as bs cs h1 h2

theorem pyStrLe_antisymm (a b : String) (h1 : pyStrLe a b = true) (h2 : pyStrLe b a = true) :
    a = b := by
  simp only [pyStrLe, pyStrLt, Bool.not_eq_true'] at h1 h2
  cases a with
  | mk da =>
    cases b with
    | mk db =>
      have : db = da := strLtB_eq_of_not db da h1 h2
      rw [this]

theorem pyStrLe_total (a b : String) : pyStrLe a b = true ∨ pyStrLe b a = true := by
  simp only [pyStrLe, pyStrLt, Bool.not_eq_true']
  by_cases h : strLtB b.data a.data = true
  · right
    exact strLtB_asymm _ _ h
  · left
    exact eq_false_of_ne_true h

theorem pyStrLe_trans (a b c : String) (h1 : pyStrLe a b = true) (h2 : pyStrLe b c = true) :
    pyStrLe a c = true := by
  simp only [pyStrLe, pyStrLt, Bool.not_eq_true'] at h1 h2 ⊢
  by_cases hca : strLtB c.data a.data = true
  · exfalso
    by_cases hab : strLtB a.data b.data = true
    · have hcb := strLtB_trans c.data a.data b.data hca hab
      exact absurd hcb (by simp [h2])
    · have heq : a.data = b.data := strLtB_eq_of_not a.data b.data (eq_false_of_ne_true hab) h1
      rw [heq] at hca
      exact absurd hca (by simp [h2])
  · exact eq_false_of_ne_true hca


/- Sorting lemmas -/

theorem insKV_perm (e : String × JVal) : ∀ l, List.Perm (insKV e l) (e :: l)
  | [] => List.Perm.refl _
  | f :: fs => by
    simp only [insKV]
    split
    · exact List.Perm.refl _
    · exact ((insKV_perm e fs).cons f).trans (List.Perm.swap e f fs)

theorem sortKV_perm : ∀ l, List.Perm (sortKV l) l
  | [] => List.Perm.refl _
  | e :: es => by
    simp only [sortKV]
    exact (insKV_perm e (sortKV es)).trans ((sortKV_perm es).cons e)

theorem insKV_sorted (e : String × JVal) :
    ∀ l, l.Pairwise kvLeP → (insKV e l).Pairwise kvLeP
  | [], _ => by simp [insKV]
  | f :: fs, hp => by
    rw [List.pairwise_cons] at hp
    simp only [insKV]
    split
    · rename_i hle
      rw [List.pairwise_cons]
      refine ⟨?_, List.pairwise_cons.mpr hp⟩
      intro x hx
      rcases List.mem_cons.mp hx with h | h
      · subst h; exact hle
      · exact pyStrLe_trans _ _ _ hle (hp.1 x h)
    · rename_i hle
      rw [List.pairwise_cons]
      refine ⟨?_, insKV_sorted e fs hp.2⟩
      intro x hx
      have hx' := ((insKV_perm e fs).mem_iff).mp hx
      rcases List.mem_cons.mp hx' with h | h
      · rcases pyStrLe_total e.1 f.1 with ht | ht
        · exact absurd ht hle
        · show pyStrLe f.1 x.1 = true
          rw [h]
          exact ht
      · exact hp.1 x h

theorem sortKV_sorted : ∀ l, (sortKV l).Pairwise kvLeP
  | [] => List.Pairwise.nil
  | e :: es => insKV_sorted e (sortKV es) (sortKV_sorted es)

theorem sorted_perm_nodup_eq : ∀ (l1 l2 : List (String × JVal)),
    l1.Perm l2 → l1.Pairwise kvLeP → l2.Pairwise kvLeP →
    (l1.map Prod.fst).Nodup → l1 = l2
  | [], l2, hp, _, _, _ => (hp.symm.eq_nil).symm
  | a :: l1', [], hp, _, _, _ => absurd hp.eq_nil (by simp)
  | a :: l1', b :: l2', hp, hs1, hs2, hnd => by
    rw [List.pairwise_cons] at hs1 hs2
    by_cases hab : a = b
    · subst hab
      have hp' := hp.cons_inv
      have hndc : (a.1 :: l1'.map Prod.fst).Nodup := by rw [List.map_cons] at hnd; exact hnd
      have hnd' : (l1'.map Prod.fst).Nodup := (List.nodup_cons.mp hndc).2
      rw [sorted_perm_nodup_eq l1' l2' hp' hs1.2 hs2.2 hnd']
    · exfalso
      have hamem : a ∈ b :: l2' := hp.mem_iff.mp (List.mem_cons_self a l1')
      have hbmem : b ∈ a :: l1' := hp.symm.mem_iff.mp (List.mem_cons_self b l2')
      rcases List.mem_cons.mp hamem with h | ha2
      · exact hab h
      · rcases List.mem_cons.mp hbmem with h | hb1
        · exact hab h.symm
        · have h1 : pyStrLe a.1 b.1 = true := hs1.1 b hb1
          have h2 : pyStrLe b.1 a.1 = true := hs2.1 a ha2
          have hk : a.1 = b.1 := pyStrLe_antisymm _ _ h1 h2
          have hmem : a.1 ∈ l1'.map Prod.fst := by
            rw [hk]
            exact List.mem_map_of_mem Prod.fst hb1
          have hndc : (a.1 :: l1'.map Prod.fst).Nodup := by rw [List.map_cons] at hnd; exact hnd
          have hnd1 := (List.nodup_cons.mp hndc).1
          exact hnd1 hmem

theorem sortKV_eq_of_perm (l1 l2 : List (String × JVal)) (hp : l1.Perm l2)
    (hnd : (l1.map Prod.fst).Nodup) : sortKV l1 = sortKV l2 := by
  have hperm : (sortKV l1).Perm (sortKV l2) :=
    ((sortKV_perm l1).trans hp).trans (sortKV_perm l2).symm
  have hnd1 : ((sortKV l1).map Prod.fst).Nodup := by
    have := (sortKV_perm l1).map Prod.fst
    exact (this.nodup_iff).mpr hnd
  exact sorted_perm_nodup_eq (sortKV l1) (sortKV l2) hperm
    (sortKV_sorted l1) (sortKV_sorted l2) hnd1


/- Hash invariance -/

theorem immutable_dict_eq_map : ∀ l : List (String × JVal),
    immutable_dict l = l.map (fun e => (e.1, immutable_conv e.2))
  | [] => rfl
  | (k, v) :: rest => by
    simp [immutable_dict, immutable_dict_eq_map rest]

theorem sortAllKV_eq_map : ∀ l : List (String × JVal),
    sortAllKV l = l.map (fun e => (e.1, sortAll e.2))
  | [] => rfl
  | (k, v) :: rest => by
    simp [sortAllKV, sortAllKV_eq_map rest]

theorem map_fst_pair_map (f : JVal → JVal) : ∀ l : List (String × JVal),
    (l.map (fun e => (e.1, f e.2))).map Prod.fst = l.map Prod.fst
  | [] => rfl
  | (k, v) :: rest => by simp [map_fst_pair_map f rest]

theorem hash_dict_perm (d1 d2 : List (String × JVal)) (hp : d1.Perm d2)
    (hnd : (d1.map Prod.fst).Nodup) : hash_dict d1 = hash_dict d2 := by
  have hperm : (sortAllKV (immutable_dict d1)).Perm (sortAllKV (immutable_dict d2)) := by
    rw [immutable_dict_eq_map, immutable_dict_eq_map, sortAllKV_eq_map, sortAllKV_eq_map]
    exact (hp.map _).map _
  have hnd1 : ((sortAllKV (immutable_dict d1)).map Prod.fst).Nodup := by
    rw [immutable_dict_eq_map, sortAllKV_eq_map, map_fst_pair_map, map_fst_pair_map]
    exact hnd
  have hsort := sortKV_eq_of_perm _ _ hperm hnd1
  simp only [hash_dict, dumps, if_true, sortAll]
  rw [hsort]

theorem hash_list_seqSim (l1 l2 : List JVal) (h : seqSimL l1 l2 = true) :
    hash_list l1 = hash_list l2 := by
  have hd : dumps0 (JVal.jtup l1) = dumps0 (JVal.jtup l2) := by
    simp only [dumps0]
    rw [seqSimL_dumpsList l1 l2 h]
  simp [hash_list, dumps, hd]

/-- C3: the hash_dict digest of a string-keyed mapping is independent of the
key insertion order (for any permutation of an entry list with distinct
keys); sequences that agree elementwise hash identically under hash_list no
matter whether each level is built as a list or a tuple; a list and a tuple
with the same elements serialize to the same JSON text; a list value, a
tuple value and a numeric-array value with the same elements give the same
hash_dict digest; and in particular the hash of the mapping a maps to 1, b
maps to [1, 2] equals the hash of the same mapping written in the other key
order. -/
theorem claim_C3_hash_determinism :
    (∀ d1 d2 : List (String × JVal), d1.Perm d2 → (d1.map Prod.fst).Nodup →
        hash_dict d1 = hash_dict d2)
  ∧ (∀ l1 l2 : List JVal, seqSimL l1 l2 = true → hash_list l1 = hash_list l2)
  ∧ (∀ xs : List JVal, dumps0 (.jarr xs) = dumps0 (.jtup xs))
  ∧ (∀ (k : String) (xs : List JVal) (d : List (String × JVal)),
        hash_dict ((k, .jarr xs) :: d) = hash_dict ((k, .jtup xs) :: d))
  ∧ (∀ (k : String) (ns : List Int) (d : List (String × JVal)),
        hash_dict ((k, .jnd ns) :: d) = hash_dict ((k, .jtup (ns.map JVal.jnum)) :: d))
  ∧ hash_dict [("a", .jnum 1), ("b", .jarr [.jnum 1, .jnum 2])]
      = hash_dict [("b", .jarr [.jnum 1, .jnum 2]), ("a", .jnum 1)] := by
  refine ⟨hash_dict_perm, hash_list_seqSim, ?_, ?_, ?_, ?_⟩
  · intro xs; rfl
  · intro k xs d; rfl
  · intro k ns d; rfl
  · exact hash_dict_perm _ _ (List.Perm.swap _ _ _) (by decide)

theorem claim_C3_hash_determinism_witness :
    hash_dict [("x", JVal.jnum 1), ("y", JVal.jnum 2)]
      = hash_dict [("y", JVal.jnum 2), ("x", JVal.jnum 1)]
  ∧ hash_list [JVal.jarr [JVal.jnum 1, JVal.jnum 2]]
      = hash_list [JVal.jtup [JVal.jnum 1, JVal.jnum 2]] :=
  ⟨claim_C3_hash_determinism.1 _ _ (List.Perm.swap _ _ _) (by decide),
   claim_C3_hash_determinism.2.1 _ _ (by decide)⟩
